import Mathlib

/- Embedding of the COVID19-ES-Py core: the field normalizer
(trata_dados_linha), case-record construction (Caso.carrega_dados_linha),
the aggregation pass (Relatorio.popula_relatorio), municipality lookup
(Relatorio.busca_casos_municipio) and the date filters of LeitorRelatorio,
from src/COVID19_ES_Py/relatorio.py, together with the older variant in
src/COVID19_ES_Py/parse_relatorio_powerbi.py (namespace PowerBI). -/

namespace CovidESPy

/-- Calendar date carried by a parsed first column (an arrow object in the source). -/
structure Data where
  ano : Nat
  mes : Nat
  dia : Nat
deriving DecidableEq

/-- Date comparison, true when the first date is on or before the second
(timestamp comparison of arrow date objects in the source). -/
def Data.antesOuIgual (a b : Data) : Bool :=
  decide (a.ano < b.ano ∨ (a.ano = b.ano ∧ (a.mes < b.mes ∨ (a.mes = b.mes ∧ a.dia ≤ b.dia))))

/-- Number of days of a month, with leap years (arrow rejects impossible dates). -/
def diasNoMes (ano mes : Nat) : Nat :=
  if mes = 2 then (if ano % 4 = 0 ∧ (ano % 100 ≠ 0 ∨ ano % 400 = 0) then 29 else 28)
  else if mes = 4 ∨ mes = 6 ∨ mes = 9 ∨ mes = 11 then 30
  else 31

/-- Numeric value of a decimal digit character. -/
def valorDigito (c : Char) : Option Nat :=
  if c.isDigit then some (c.toNat - 48) else none

/-- Assembles and validates a date from its eight digit characters (day, month, year). -/
def montaData (d1 d2 m1 m2 a1 a2 a3 a4 : Char) : Option Data := do
  let x1 ← valorDigito d1
  let x2 ← valorDigito d2
  let y1 ← valorDigito m1
  let y2 ← valorDigito m2
  let z1 ← valorDigito a1
  let z2 ← valorDigito a2
  let z3 ← valorDigito a3
  let z4 ← valorDigito a4
  let dia := 10 * x1 + x2
  let mes := 10 * y1 + y2
  let ano := 1000 * z1 + 100 * z2 + 10 * z3 + z4
  if 1 ≤ mes ∧ mes ≤ 12 ∧ 1 ≤ dia ∧ dia ≤ diasNoMes ano mes then
    some ⟨ano, mes, dia⟩
  else
    none

/-- Parses a date in the format day-month-year with the given separator
(or with no separator at all, for the format DDMMYYYY). -/
def parseDataFormato (sep : Option Char) (s : String) : Option Data :=
  match sep, s.data with
  | some c, [d1, d2, x, m1, m2, y, a1, a2, a3, a4] =>
      if x = c ∧ y = c then montaData d1 d2 m1 m2 a1 a2 a3 a4 else none
  | none, [d1, d2, m1, m2, a1, a2, a3, a4] => montaData d1 d2 m1 m2 a1 a2 a3 a4
  | _, _ => none

/-- Strict parse in the single format DD/MM/YYYY (arrow.get(s, 'DD/MM/YYYY')). -/
def parseData (s : String) : Option Data :=
  parseDataFormato (some '/') s

/-- Parse trying the five formats accepted by the date filters:
DD/MM/YYYY, DD-MM-YYYY, DD_MM_YYYY, DD.MM.YYYY and DDMMYYYY. -/
def parseDataMulti (s : String) : Option Data :=
  (parseDataFormato (some '/') s).orElse fun _ =>
  (parseDataFormato (some '-') s).orElse fun _ =>
  (parseDataFormato (some '_') s).orElse fun _ =>
  (parseDataFormato (some '.') s).orElse fun _ =>
  parseDataFormato none s

/-- A raw csv cell as delivered by the rows library: either a string or a
number (the boolean vocabulary of the source has the integer keys 1 and 2). -/
inductive Bruto
  | texto (s : String)
  | numero (n : Int)
deriving DecidableEq

/-- A cell after field normalization: the parsed date at position 0, a raw
string or number carried through, None for a stripped sentinel, or a boolean
produced by the flag vocabulary. -/
inductive Camp
  | dataC (d : Data)
  | texto (s : String)
  | numero (n : Int)
  | nulo
  | booleano (b : Bool)
deriving DecidableEq

/-- Errors surfaced by the embedded code: ParserError from arrow (parse),
TypeError (tipo), IndexError (indice), KeyError (chave) and RelatorioError
(relatorio). -/
inductive Erro
  | parse
  | tipo
  | indice
  | chave (k : String)
  | relatorio (msg : String)
deriving DecidableEq

/-- Evaluates an indexing of a Python list, IndexError when out of range. -/
def obtem (linha : List Bruto) (i : Nat) : Except Erro Bruto :=
  match linha.get? i with
  | some b => Except.ok b
  | none => Except.error Erro.indice

/-- Whether the first list occurs as a contiguous prefix of the second. -/
def ehPrefixoLista : List Char → List Char → Bool
  | [], _ => true
  | _ :: _, [] => false
  | c :: cs, d :: ds => c = d && ehPrefixoLista cs ds

/-- Whether the first list occurs as a contiguous sublist of the second. -/
def contemSublista (sub : List Char) : List Char → Bool
  | [] => ehPrefixoLista sub []
  | c :: cs => ehPrefixoLista sub (c :: cs) || contemSublista sub cs

/-- Python substring containment: sub in s. -/
def contemSubstring (sub s : String) : Bool :=
  contemSublista sub.data s.data

/-- Sentinel stripping by equality against a list of sentinels
(the Python test cell in [sentinels]): matching strings become None. -/
def trataSentinelasIgual (sentinelas : List String) (b : Bruto) : Camp :=
  match b with
  | Bruto.texto s => if s ∈ sentinelas then Camp.nulo else Camp.texto s
  | Bruto.numero n => Camp.numero n

/-- Sentinel stripping by substring containment (the Python test
pattern in cell): strings containing the pattern become None; a numeric
cell raises TypeError, as the Python in operator would. -/
def trataContem (padrao : String) (b : Bruto) : Except Erro Camp :=
  match b with
  | Bruto.texto s => Except.ok (if contemSubstring padrao s then Camp.nulo else Camp.texto s)
  | Bruto.numero _ => Except.error Erro.tipo

/-- The fixed boolean vocabulary stringParaBool of trata_dados_linha, with
the dictionary default None for any value outside the table. -/
def stringParaBool (b : Bruto) : Camp :=
  if b = Bruto.texto "Sim" then Camp.booleano true
  else if b = Bruto.texto "Não" then Camp.booleano false
  else if b = Bruto.texto "-" then Camp.nulo
  else if b = Bruto.texto "" then Camp.nulo
  else if b = Bruto.numero 1 then Camp.booleano true
  else if b = Bruto.numero 2 then Camp.nulo
  else Camp.nulo

/-- Raw cell carried through normalization unchanged. -/
def brutoCamp : Bruto → Camp
  | Bruto.texto s => Camp.texto s
  | Bruto.numero n => Camp.numero n

/-- The in-place cell rewrite performed by trata_dados_linha at position i,
given the values already computed for the specially treated positions. -/
def montaCamp (d : Data) (c2 c3 c6 c9 c10 c11 : Camp) (i : Nat) (b : Bruto) : Camp :=
  if i = 0 then Camp.dataC d
  else if i = 2 then c2
  else if i = 3 then c3
  else if i = 6 then c6
  else if i = 9 then c9
  else if i = 10 then c10
  else if i = 11 then c11
  else if 12 ≤ i then stringParaBool b
  else brutoCamp b

/-- Positional map with the index passed to the rewriting function. -/
def mapComIndice (f : Nat → Bruto → Camp) : Nat → List Bruto → List Camp
  | _, [] => []
  | i, b :: bs => f i b :: mapComIndice f (i + 1) bs

/-- The field normalizer trata_dados_linha of
src/COVID19_ES_Py/parse_relatorio_powerbi.py (relatorio.py imports the
function of the same name from utils): parses the first column as a strict
DD/MM/YYYY date, strips per-column sentinels (equality for positions 2 and 6,
substring containment for positions 3, 9, 10 and 11) and maps every position
from 12 on through the boolean vocabulary. Cell accesses are performed in the
same order as the source, so the first failing access determines the error. -/
def trata_dados_linha (linha : List Bruto) : Except Erro (List Camp) := do
  let b0 ← obtem linha 0
  let d ← (match b0 with
           | Bruto.texto s =>
               match parseData s with
               | some d => Except.ok d
               | none => Except.error Erro.parse
           | Bruto.numero _ => Except.error Erro.parse)
  let b2 ← obtem linha 2
  let b3 ← obtem linha 3
  let c3 ← trataContem "-" b3
  let b6 ← obtem linha 6
  let b9 ← obtem linha 9
  let c9 ← trataContem "Ignorado" b9
  let b10 ← obtem linha 10
  let c10 ← trataContem "Ignorado" b10
  let b11 ← obtem linha 11
  let c11 ← trataContem "-" b11
  Except.ok (mapComIndice (montaCamp d (trataSentinelasIgual ["Ignorado", "-"] b2) c3
    (trataSentinelasIgual ["Não encontrado", "NULL"] b6) c9 c10 c11) 0 linha)

/-- A Caso object of relatorio.py, with field names and column-to-field
mapping taken from Caso.carrega_dados_linha (lines 150-189). -/
structure Caso where
  data : Data
  classificacao : Camp
  evolucao : Camp
  criterioConfirmacao : Camp
  statusNotificacao : Camp
  municipio : Camp
  bairro : Camp
  faixaEtaria : Camp
  sexo : Camp
  racaCor : Camp
  escolaridade : Camp
  sintomas : List (String × Camp)
  comorbidades : List (String × Camp)
  ficouInternado : Camp
  viagemBrasil : Camp
  viagemInternacional : Camp
deriving DecidableEq

/-- Evaluates an indexing of the normalized row, IndexError when out of range. -/
def obtemCamp (camps : List Camp) (i : Nat) : Except Erro Camp :=
  match camps.get? i with
  | some c => Except.ok c
  | none => Except.error Erro.indice

/-- Caso.carrega_dados_linha of relatorio.py: normalizes the raw row with
trata_dados_linha and assigns the positional fields, accessing positions in
the order of the source so a short row raises IndexError at its first
missing position. -/
def carrega_dados_linha (linha : List Bruto) : Except Erro Caso := do
  let camps ← trata_dados_linha linha
  let c0 ← obtemCamp camps 0
  let d ← (match c0 with
           | Camp.dataC d => Except.ok d
           | _ => Except.error Erro.parse)
  let c1 ← obtemCamp camps 1
  let c2 ← obtemCamp camps 2
  let c3 ← obtemCamp camps 3
  let c4 ← obtemCamp camps 4
  let c5 ← obtemCamp camps 5
  let c6 ← obtemCamp camps 6
  let c7 ← obtemCamp camps 7
  let c8 ← obtemCamp camps 8
  let c9 ← obtemCamp camps 9
  let c10 ← obtemCamp camps 10
  let c11 ← obtemCamp camps 11
  let c12 ← obtemCamp camps 12
  let c13 ← obtemCamp camps 13
  let c14 ← obtemCamp camps 14
  let c15 ← obtemCamp camps 15
  let c16 ← obtemCamp camps 16
  let c17 ← obtemCamp camps 17
  let c18 ← obtemCamp camps 18
  let c19 ← obtemCamp camps 19
  let c20 ← obtemCamp camps 20
  let c21 ← obtemCamp camps 21
  let c22 ← obtemCamp camps 22
  let c23 ← obtemCamp camps 23
  let c24 ← obtemCamp camps 24
  let c25 ← obtemCamp camps 25
  let c26 ← obtemCamp camps 26
  Except.ok
    { data := d
      classificacao := c1
      evolucao := c2
      criterioConfirmacao := c3
      statusNotificacao := c4
      municipio := c5
      bairro := c6
      faixaEtaria := c7
      sexo := c8
      racaCor := c9
      escolaridade := c10
      sintomas := [("febre", c11), ("dificuldadeRespiratoria", c12), ("tosse", c13),
        ("coriza", c14), ("dorGarganta", c15), ("diarreia", c16), ("cefaleia", c17)]
      comorbidades := [("comorbidadePulmao", c18), ("comorbidadeCardio", c19),
        ("comorbidadeRenal", c20), ("comorbidadeDiabetes", c21),
        ("comorbidadeTabagismo", c22), ("comorbidadeObesidade", c23)]
      ficouInternado := c24
      viagemBrasil := c25
      viagemInternacional := c26 }

/-- A Municipio aggregation bucket (nome, casos, casosConfirmados, obitos),
generic over the case-record type so the two implementations share it. -/
structure Municipio (α : Type) where
  nome : String
  casos : List α
  casosConfirmados : Nat
  obitos : Nat
deriving DecidableEq

/-- A freshly created Municipio bucket (Municipio.__init__). -/
def municipioNovo {α : Type} (nome : String) : Municipio α :=
  { nome := nome, casos := [], casosConfirmados := 0, obitos := 0 }

/-- Python dict lookup on an association list with string keys. -/
def procuraChave {α : Type} : List (String × α) → String → Option α
  | [], _ => none
  | (k, v) :: resto, chave => if k = chave then some v else procuraChave resto chave

/-- Python dict item assignment through an in-place modification of the
value stored under the key (absent keys leave the list unchanged; the
embedded code only applies it after a successful lookup). -/
def alteraChave {α : Type} : List (String × α) → String → (α → α) → List (String × α)
  | [], _, _ => []
  | (k, v) :: resto, chave, f =>
      if k = chave then (k, f v) :: resto else (k, v) :: alteraChave resto chave f

/-- Modelled from the spec: the text-normalization collaborator
utils.remove_caracteres_especiais is not under src/; per the spec it strips
accents/diacritics and special characters from free text for comparison
purposes. Accented letters are mapped to their base letter. -/
def tiraAcento (c : Char) : Char :=
  match c with
  | 'á' | 'à' | 'â' | 'ã' => 'a'
  | 'é' | 'ê' => 'e'
  | 'í' => 'i'
  | 'ó' | 'ô' | 'õ' => 'o'
  | 'ú' | 'ü' => 'u'
  | 'ç' => 'c'
  | 'Á' | 'À' | 'Â' | 'Ã' => 'A'
  | 'É' | 'Ê' => 'E'
  | 'Í' => 'I'
  | 'Ó' | 'Ô' | 'Õ' => 'O'
  | 'Ú' | 'Ü' => 'U'
  | 'Ç' => 'C'
  | _ => c

/-- Modelled from the spec: utils.remove_caracteres_especiais (not under
src/) strips accents/diacritics and special characters, keeping letters,
digits and spaces. -/
def removeCaracteresEspeciais (s : String) : String :=
  String.mk ((s.data.map tiraAcento).filter (fun c => c.isAlphanum || c = ' '))

/-- Python str.upper restricted to ASCII letters (municipality registry
entries are canonical uppercase names). -/
def maiuscula (s : String) : String :=
  String.mk (s.data.map Char.toUpper)

/-- Python str.strip: removes leading and trailing whitespace. -/
def ehEspaco (c : Char) : Bool :=
  c = ' ' || c = '\t' || c = '\n' || c = '\r'

/-- Removes leading whitespace characters. -/
def tiraEspacosEsq : List Char → List Char
  | [] => []
  | c :: cs => if ehEspaco c then tiraEspacosEsq cs else c :: cs

/-- Python str.strip on both ends. -/
def tiraEspacos (s : String) : String :=
  String.mk ((tiraEspacosEsq (tiraEspacosEsq s.data).reverse).reverse)

/-- The Relatorio aggregation state of relatorio.py. The two fixed-key
counter dictionaries totalGeral and importadosOuIndefinidos are flattened
into their two entries each. The registry MUNICIPIOS lives in utils (not
under src/), so every operation takes it as the explicit parameter
municipios: per the spec it is a fixed set of canonical uppercase,
diacritics-stripped municipality names. -/
structure Relatorio where
  linhasRelatorio : List (List Bruto)
  casosMunicipios : List (String × Municipio Caso)
  importadosCasosConfirmados : Nat
  importadosObitos : Nat
  totalCasosConfirmados : Nat
  totalObitos : Nat
  nMunicipiosInfectados : Nat
deriving DecidableEq

/-- Relatorio.inicializa_dicionario_municipios: one fresh Municipio bucket
per registry entry. -/
def inicializa_dicionario_municipios (municipios : List String) : List (String × Municipio Caso) :=
  municipios.map (fun m => (m, municipioNovo m))

/-- The classified branch of the popula_relatorio loop (relatorio.py lines
283-289 plus the global increment of line 296), as the in-place mutations of
the source in their order: possible newly-infected increment, possible death
increments, case append, confirmed increment, global increment. -/
def aplicaClassificado (caso : Caso) (m : String) (bucket : Municipio Caso) (rel : Relatorio) :
    Relatorio :=
  let rel1 := if bucket.casosConfirmados = 0 then
      { rel with nMunicipiosInfectados := rel.nMunicipiosInfectados + 1 }
    else rel
  let rel2 := if caso.evolucao = Camp.texto "Óbito pelo COVID-19" then
      { rel1 with
        totalObitos := rel1.totalObitos + 1
        casosMunicipios := alteraChave rel1.casosMunicipios m
          (fun b => { b with obitos := b.obitos + 1 }) }
    else rel1
  let rel3 := { rel2 with casosMunicipios := alteraChave rel2.casosMunicipios m (fun b => { b with casos := b.casos ++ [caso] }) }
  let rel4 := { rel3 with casosMunicipios := alteraChave rel3.casosMunicipios m (fun b => { b with casosConfirmados := b.casosConfirmados + 1 }) }
  { rel4 with totalCasosConfirmados := rel4.totalCasosConfirmados + 1 }

/-- The unclassified branch of the popula_relatorio loop (relatorio.py lines
291-294 plus the global increment of line 296). -/
def aplicaImportado (caso : Caso) (rel : Relatorio) : Relatorio :=
  let rel1 := { rel with importadosCasosConfirmados := rel.importadosCasosConfirmados + 1 }
  let rel2 := if caso.evolucao = Camp.texto "Óbito pelo COVID-19" then
      { rel1 with
        totalObitos := rel1.totalObitos + 1
        importadosObitos := rel1.importadosObitos + 1 }
    else rel1
  { rel2 with totalCasosConfirmados := rel2.totalCasosConfirmados + 1 }

/-- One iteration of the loop of Relatorio.popula_relatorio (relatorio.py
lines 280-296): build the Caso, test registry membership on the normalized
name, and tally into the municipality bucket (indexed with the raw name) or
into importadosOuIndefinidos, always incrementing the global total. -/
def processa_linha (municipios : List String) (rel : Relatorio) (linha : List Bruto) :
    Except Erro Relatorio :=
  match carrega_dados_linha linha with
  | Except.error e => Except.error e
  | Except.ok caso =>
    match caso.municipio with
    | Camp.texto m =>
      if municipios.contains (removeCaracteresEspeciais (maiuscula m)) = true then
        match procuraChave rel.casosMunicipios m with
        | none => Except.error (Erro.chave m)
        | some bucket => Except.ok (aplicaClassificado caso m bucket rel)
      else
        Except.ok (aplicaImportado caso rel)
    | _ => Except.error Erro.tipo

/-- The row loop of Relatorio.popula_relatorio; an exception raised on any
row propagates and aborts the pass. -/
def percorreLinhas (municipios : List String) (rel : Relatorio) :
    List (List Bruto) → Except Erro Relatorio
  | [] => Except.ok rel
  | linha :: resto =>
    match processa_linha municipios rel linha with
    | Except.error e => Except.error e
    | Except.ok rel2 => percorreLinhas municipios rel2 resto

/-- The reset state at the start of Relatorio.popula_relatorio (relatorio.py
lines 273-278): zeroed counters and a fresh registry-derived dictionary. -/
def estadoInicial (municipios : List String) (linhas : List (List Bruto)) : Relatorio :=
  { linhasRelatorio := linhas
    casosMunicipios := inicializa_dicionario_municipios municipios
    importadosCasosConfirmados := 0
    importadosObitos := 0
    totalCasosConfirmados := 0
    totalObitos := 0
    nMunicipiosInfectados := 0 }

/-- Relatorio.popula_relatorio of relatorio.py: resets all counters,
re-initializes the municipality dictionary and folds every row of
linhasRelatorio into the counters. -/
def popula_relatorio (municipios : List String) (rel : Relatorio) : Except Erro Relatorio :=
  percorreLinhas municipios (estadoInicial municipios rel.linhasRelatorio) rel.linhasRelatorio

/-- Relatorio.busca_casos_municipio: normalizes the query string and looks
it up in casosMunicipios, raising RelatorioError with the original input in
the message when absent. -/
def busca_casos_municipio (rel : Relatorio) (municipio : String) : Except Erro (Municipio Caso) :=
  match procuraChave rel.casosMunicipios (tiraEspacos (maiuscula (removeCaracteresEspeciais municipio))) with
  | some m => Except.ok m
  | none => Except.error (Erro.relatorio
      ("O município \x27" ++ municipio ++ "\x27 não foi encontrado no relatório. Pode ter ocorrido um erro de digitação ou o município não registrou casos de COVID-19."))

/-- The LeitorRelatorio facade: its own row list plus the owned Relatorio
(both set to the same rows when a csv is loaded). -/
structure LeitorRelatorio where
  linhasRelatorio : List (List Bruto)
  relatorio : Relatorio
deriving DecidableEq

/-- Parses the first cell of a row with the multi-format date parser used by
the filter comprehensions (arrow.get(caso[0], [five formats])); a missing or
non-string cell raises. -/
def primeiraDataMulti (linha : List Bruto) : Except Erro Data :=
  match linha.get? 0 with
  | some (Bruto.texto s) =>
      match parseDataMulti s with
      | some d => Except.ok d
      | none => Except.error Erro.parse
  | some (Bruto.numero _) => Except.error Erro.parse
  | none => Except.error Erro.indice

/-- The list comprehension of LeitorRelatorio.filtra_casos_ate_dia: keeps
rows whose parsed date is on or before the target, failing on the first row
whose date cannot be parsed. -/
def filtraAte (alvo : Data) : List (List Bruto) → Except Erro (List (List Bruto))
  | [] => Except.ok []
  | linha :: resto =>
    match primeiraDataMulti linha with
    | Except.error e => Except.error e
    | Except.ok d =>
      match filtraAte alvo resto with
      | Except.error e => Except.error e
      | Except.ok mantidas =>
          Except.ok (if Data.antesOuIgual d alvo then linha :: mantidas else mantidas)

/-- The list comprehension of LeitorRelatorio.filtra_casos_no_dia: keeps
rows whose parsed date equals the target exactly. -/
def filtraNoDia (alvo : Data) : List (List Bruto) → Except Erro (List (List Bruto))
  | [] => Except.ok []
  | linha :: resto =>
    match primeiraDataMulti linha with
    | Except.error e => Except.error e
    | Except.ok d =>
      match filtraNoDia alvo resto with
      | Except.error e => Except.error e
      | Except.ok mantidas =>
          Except.ok (if d = alvo then linha :: mantidas else mantidas)

/-- LeitorRelatorio.filtra_casos_ate_dia: requires loaded rows, parses the
target date in one of five formats, keeps the non-header rows dated on or
before it, installs them as the working row set and re-runs
popula_relatorio. -/
def filtra_casos_ate_dia (municipios : List String) (leitor : LeitorRelatorio) (data : String) :
    Except Erro Relatorio :=
  if leitor.relatorio.linhasRelatorio = [] then
    Except.error (Erro.relatorio "Não é possível filtrar pois o relatório está vazio (use o método popula_relatorio() para preencher o relatório).")
  else
    match parseDataMulti data with
    | none => Except.error Erro.parse
    | some alvo =>
      match filtraAte alvo (leitor.linhasRelatorio.drop 1) with
      | Except.error e => Except.error e
      | Except.ok mantidas =>
          popula_relatorio municipios { leitor.relatorio with linhasRelatorio := mantidas }

/-- LeitorRelatorio.filtra_casos_no_dia: as the previous filter, keeping the
non-header rows dated exactly on the target date. -/
def filtra_casos_no_dia (municipios : List String) (leitor : LeitorRelatorio) (data : String) :
    Except Erro Relatorio :=
  if leitor.relatorio.linhasRelatorio = [] then
    Except.error (Erro.relatorio "Não é possível filtrar pois o relatório está vazio (use o método popula_relatorio() para preencher o relatório).")
  else
    match parseDataMulti data with
    | none => Except.error Erro.parse
    | some alvo =>
      match filtraNoDia alvo (leitor.linhasRelatorio.drop 1) with
      | Except.error e => Except.error e
      | Except.ok mantidas =>
          popula_relatorio municipios { leitor.relatorio with linhasRelatorio := mantidas }

namespace PowerBI

/-- The Caso of parse_relatorio_powerbi.py: same positional layout but its
own symptom/comorbidity key order and the field name criterioClassificacao. -/
structure Caso where
  data : Data
  classificacao : Camp
  evolucao : Camp
  criterioClassificacao : Camp
  statusNotificacao : Camp
  municipio : Camp
  bairro : Camp
  faixaEtaria : Camp
  sexo : Camp
  racaCor : Camp
  escolaridade : Camp
  sintomas : List (String × Camp)
  comorbidades : List (String × Camp)
  ficouInternado : Camp
  viagemBrasil : Camp
  viagemInternacional : Camp
deriving DecidableEq

/-- Caso.carrega_dados_linha of parse_relatorio_powerbi.py (lines 100-133). -/
def carrega_dados_linha (linha : List Bruto) : Except Erro Caso := do
  let camps ← trata_dados_linha linha
  let c0 ← obtemCamp camps 0
  let d ← (match c0 with
           | Camp.dataC d => Except.ok d
           | _ => Except.error Erro.parse)
  let c1 ← obtemCamp camps 1
  let c2 ← obtemCamp camps 2
  let c3 ← obtemCamp camps 3
  let c4 ← obtemCamp camps 4
  let c5 ← obtemCamp camps 5
  let c6 ← obtemCamp camps 6
  let c7 ← obtemCamp camps 7
  let c8 ← obtemCamp camps 8
  let c9 ← obtemCamp camps 9
  let c10 ← obtemCamp camps 10
  let c11 ← obtemCamp camps 11
  let c12 ← obtemCamp camps 12
  let c13 ← obtemCamp camps 13
  let c14 ← obtemCamp camps 14
  let c15 ← obtemCamp camps 15
  let c16 ← obtemCamp camps 16
  let c17 ← obtemCamp camps 17
  let c18 ← obtemCamp camps 18
  let c19 ← obtemCamp camps 19
  let c20 ← obtemCamp camps 20
  let c21 ← obtemCamp camps 21
  let c22 ← obtemCamp camps 22
  let c23 ← obtemCamp camps 23
  let c24 ← obtemCamp camps 24
  let c25 ← obtemCamp camps 25
  let c26 ← obtemCamp camps 26
  Except.ok
    { data := d
      classificacao := c1
      evolucao := c2
      criterioClassificacao := c3
      statusNotificacao := c4
      municipio := c5
      bairro := c6
      faixaEtaria := c7
      sexo := c8
      racaCor := c9
      escolaridade := c10
      sintomas := [("cefaleia", c11), ("coriza", c12), ("diarreia", c13),
        ("dificuldadeRespiratoria", c14), ("dorGarganta", c15), ("febre", c16),
        ("tosse", c17)]
      comorbidades := [("comorbidadeCardio", c18), ("comorbidadeDiabetes", c19),
        ("comorbidadePulmao", c20), ("comorbidadeRenal", c21),
        ("comorbidadeTabagismo", c22), ("comorbidadeObesidade", c23)]
      ficouInternado := c24
      viagemBrasil := c25
      viagemInternacional := c26 }

/-- Relatorio.inicializa_dicionario_municipios of parse_relatorio_powerbi.py
(invoked only by the constructor in that file). -/
def inicializa_dicionario_municipios (municipios : List String) :
    List (String × Municipio Caso) :=
  municipios.map (fun m => (m, municipioNovo m))

/-- The Relatorio state of parse_relatorio_powerbi.py (field rows instead of
linhasRelatorio, counter dictionaries flattened as in the main embedding). -/
structure Relatorio where
  rows : List (List Bruto)
  casosMunicipios : List (String × Municipio Caso)
  importadosCasosConfirmados : Nat
  importadosObitos : Nat
  totalCasosConfirmados : Nat
  totalObitos : Nat
  nMunicipiosInfectados : Nat
deriving DecidableEq

/-- One iteration of the loop of the older Relatorio.popula_relatorio
(parse_relatorio_powerbi.py lines 168-186): a row is tallied only when its
classification equals the literal Confirmados; any other row leaves the
state untouched. The per-row print side effect of the source is not
modelled. -/
def processa_linha (municipios : List String) (rel : Relatorio) (linha : List Bruto) :
    Except Erro Relatorio :=
  match carrega_dados_linha linha with
  | Except.error e => Except.error e
  | Except.ok caso =>
    if caso.classificacao = Camp.texto "Confirmados" then
      match caso.municipio with
      | Camp.texto m =>
        if municipios.contains (removeCaracteresEspeciais (maiuscula m)) = true then
          match procuraChave rel.casosMunicipios m with
          | none => Except.error (Erro.chave m)
          | some bucket =>
            let rel1 := if bucket.casosConfirmados = 0 then
                { rel with nMunicipiosInfectados := rel.nMunicipiosInfectados + 1 }
              else rel
            let rel2 := if caso.evolucao = Camp.texto "Óbito pelo COVID-19" then
                { rel1 with
                  totalObitos := rel1.totalObitos + 1
                  casosMunicipios := alteraChave rel1.casosMunicipios m
                    (fun b => { b with obitos := b.obitos + 1 }) }
              else rel1
            let rel3 := { rel2 with casosMunicipios := alteraChave rel2.casosMunicipios m (fun b => { b with casos := b.casos ++ [caso] }) }
            let rel4 := { rel3 with casosMunicipios := alteraChave rel3.casosMunicipios m (fun b => { b with casosConfirmados := b.casosConfirmados + 1 }) }
            Except.ok { rel4 with totalCasosConfirmados := rel4.totalCasosConfirmados + 1 }
        else
          let rel1 := { rel with importadosCasosConfirmados := rel.importadosCasosConfirmados + 1 }
          let rel2 := if caso.evolucao = Camp.texto "Óbito pelo COVID-19" then
              { rel1 with
                totalObitos := rel1.totalObitos + 1
                importadosObitos := rel1.importadosObitos + 1 }
            else rel1
          Except.ok { rel2 with totalCasosConfirmados := rel2.totalCasosConfirmados + 1 }
      | _ => Except.error Erro.tipo
    else
      Except.ok rel

/-- The row loop of the older popula_relatorio. -/
def percorreLinhas (municipios : List String) (rel : Relatorio) :
    List (List Bruto) → Except Erro Relatorio
  | [] => Except.ok rel
  | linha :: resto =>
    match processa_linha municipios rel linha with
    | Except.error e => Except.error e
    | Except.ok rel2 => percorreLinhas municipios rel2 resto

/-- The older Relatorio.popula_relatorio: folds self.rows into the current
counters without any reset of the previously accumulated state. -/
def popula_relatorio (municipios : List String) (rel : Relatorio) : Except Erro Relatorio :=
  percorreLinhas municipios rel rel.rows

end PowerBI

/-- Sum of a numeric bucket projection over all municipality entries. -/
def somaPor {α : Type} (f : Municipio α → Nat) : List (String × Municipio α) → Nat
  | [] => 0
  | (_, b) :: resto => f b + somaPor f resto

/-- Whether a normalized cell is a nullable boolean (an explicit boolean or
the unknown marker). -/
def ehBoolAnulavel : Camp → Bool
  | Camp.booleano _ => true
  | Camp.nulo => true
  | _ => false

/-- Whether the first cell of a raw row fails the strict DD/MM/YYYY parse
(missing cell and numeric cell included, as both make arrow.get raise). -/
def dataInicialInvalida (linha : List Bruto) : Bool :=
  match linha.get? 0 with
  | some (Bruto.texto s) => (parseData s).isNone
  | _ => true

/-- The predicate realized by the comprehension of filtra_casos_ate_dia:
the row parses to a date on or before the target. -/
def mantemAte (alvo : Data) (linha : List Bruto) : Bool :=
  match primeiraDataMulti linha with
  | Except.ok d => Data.antesOuIgual d alvo
  | Except.error _ => false

/-- The predicate realized by the comprehension of filtra_casos_no_dia:
the row parses to a date equal to the target. -/
def mantemNoDia (alvo : Data) (linha : List Bruto) : Bool :=
  match primeiraDataMulti linha with
  | Except.ok d => decide (d = alvo)
  | Except.error _ => false

/-- Value of a successful computation, or the fallback on error. -/
def valorOu {α : Type} (x : Except Erro α) (padrao : α) : α :=
  match x with
  | Except.ok a => a
  | Except.error _ => padrao

/-- A 27-column raw row in the layout of the csv schema, with the cells the
aggregation inspects (classification, outcome, confirmation criterion,
municipality and the position-11 flag) as parameters. -/
def linhaCaso (cls evo criterio mun sint11 : String) : List Bruto :=
  [Bruto.texto "10/03/2020", Bruto.texto cls, Bruto.texto evo, Bruto.texto criterio,
   Bruto.texto "Notificado", Bruto.texto mun, Bruto.texto "Centro",
   Bruto.texto "30 a 39 anos", Bruto.texto "M", Bruto.texto "Branca",
   Bruto.texto "Superior", Bruto.texto sint11, Bruto.texto "Sim", Bruto.texto "Não",
   Bruto.texto "Não", Bruto.texto "Não", Bruto.texto "Não", Bruto.texto "Não",
   Bruto.texto "Não", Bruto.texto "Não", Bruto.texto "Não", Bruto.texto "Não",
   Bruto.texto "Não", Bruto.texto "Não", Bruto.texto "Não", Bruto.texto "Não",
   Bruto.texto "Não"]

/-- An empty Relatorio state, used as fallback and as base for the concrete
states of the examples. -/
def relVazio : Relatorio :=
  { linhasRelatorio := []
    casosMunicipios := []
    importadosCasosConfirmados := 0
    importadosObitos := 0
    totalCasosConfirmados := 0
    totalObitos := 0
    nMunicipiosInfectados := 0 }

/-- A placeholder Caso, used only as fallback value of valorOu. -/
def casoVazio : Caso :=
  { data := ⟨2020, 1, 1⟩
    classificacao := Camp.nulo
    evolucao := Camp.nulo
    criterioConfirmacao := Camp.nulo
    statusNotificacao := Camp.nulo
    municipio := Camp.nulo
    bairro := Camp.nulo
    faixaEtaria := Camp.nulo
    sexo := Camp.nulo
    racaCor := Camp.nulo
    escolaridade := Camp.nulo
    sintomas := []
    comorbidades := []
    ficouInternado := Camp.nulo
    viagemBrasil := Camp.nulo
    viagemInternacional := Camp.nulo }

/-- A registry with a single canonical entry, for the concrete examples. -/
def msUm : List String := ["VITORIA"]

/-- A row classified Suspeitos (not confirmed), in a registry municipality. -/
def linhaSuspeita : List Bruto := linhaCaso "Suspeitos" "Cura" "Clinico" "VITORIA" "Sim"

/-- A confirmed row in a registry municipality. -/
def linhaConfirmada : List Bruto := linhaCaso "Confirmados" "Cura" "Clinico" "VITORIA" "Sim"

/-- A confirmed death row in a registry municipality. -/
def linhaObito : List Bruto := linhaCaso "Confirmados" "Óbito pelo COVID-19" "Clinico" "VITORIA" "Sim"

/-- A confirmed row whose municipality is not in the registry. -/
def linhaForaRegistro : List Bruto := linhaCaso "Confirmados" "Cura" "Clinico" "NARNIA" "Sim"

/-- A confirmed row whose raw municipality name matches the registry only
after normalization (lowercase raw name, uppercase canonical entry). -/
def linhaMinuscula : List Bruto := linhaCaso "Confirmados" "Cura" "Clinico" "vitoria" "Sim"

/-- A row with an unparseable first column. -/
def linhaDataRuim : List Bruto := linhaCaso "Confirmados" "Cura" "Clinico" "VITORIA" "Sim" |>.set 0 (Bruto.texto "data ruim")

/-- A row whose confirmation-criterion cell contains a dash without being
the bare sentinel. -/
def linhaCriterioComTraco : List Bruto := linhaCaso "Confirmados" "Cura" "PCR-RT" "VITORIA" "Sim"

/-- The normalized cells of the row whose criterion contains a dash. -/
def campsCriterio : List Camp := valorOu (trata_dados_linha linhaCriterioComTraco) []

/-- A header row as it would sit at index 0 of the loaded collection. -/
def cabecalho : List Bruto := [Bruto.texto "DataNotificacao", Bruto.texto "Classificacao"]

/-- Relatorio loaded with one Suspeitos row. -/
def relSuspeita : Relatorio := { relVazio with linhasRelatorio := [linhaSuspeita] }

/-- Relatorio loaded with a classified death row and an unclassified row. -/
def relDoisCasos : Relatorio := { relVazio with linhasRelatorio := [linhaObito, linhaForaRegistro] }

/-- The Relatorio produced by aggregating relDoisCasos. -/
def relDoisCasosSaida : Relatorio := valorOu (popula_relatorio msUm relDoisCasos) relVazio

/-- A reader loaded with a header row and one Suspeitos row. -/
def leitorSuspeita : LeitorRelatorio :=
  { linhasRelatorio := [cabecalho, linhaSuspeita]
    relatorio := { relVazio with linhasRelatorio := [cabecalho, linhaSuspeita] } }

/-- The Relatorio produced by aggregating the single confirmed row. -/
def relConfirmadaSaida : Relatorio :=
  valorOu (popula_relatorio msUm { relVazio with linhasRelatorio := [linhaConfirmada] }) relVazio

/-- The Caso built from the confirmed row. -/
def casoConfirmado : Caso := valorOu (carrega_dados_linha linhaConfirmada) casoVazio

/-- The Caso built from the lowercase-municipality row. -/
def casoMinusculo : Caso := valorOu (carrega_dados_linha linhaMinuscula) casoVazio

/-- The state after processing the confirmed row from the reset state. -/
def relAposConfirmada : Relatorio :=
  valorOu (processa_linha msUm (estadoInicial msUm []) linhaConfirmada) relVazio

/-- The state after processing the Suspeitos row from the reset state. -/
def relAposSuspeita : Relatorio :=
  valorOu (processa_linha msUm (estadoInicial msUm []) linhaSuspeita) relVazio

/-- Relatorio with the registry dictionary initialized and no rows, for the
lookup examples. -/
def relBusca : Relatorio := { relVazio with casosMunicipios := inicializa_dicionario_municipios msUm }

/-- A placeholder Caso of the older implementation, fallback of valorOu. -/
def casoVazioPowerBI : PowerBI.Caso :=
  { data := ⟨2020, 1, 1⟩
    classificacao := Camp.nulo
    evolucao := Camp.nulo
    criterioClassificacao := Camp.nulo
    statusNotificacao := Camp.nulo
    municipio := Camp.nulo
    bairro := Camp.nulo
    faixaEtaria := Camp.nulo
    sexo := Camp.nulo
    racaCor := Camp.nulo
    escolaridade := Camp.nulo
    sintomas := []
    comorbidades := []
    ficouInternado := Camp.nulo
    viagemBrasil := Camp.nulo
    viagemInternacional := Camp.nulo }

/-- The Caso of the older implementation built from the Suspeitos row. -/
def casoSuspeitoPowerBI : PowerBI.Caso :=
  valorOu (PowerBI.carrega_dados_linha linhaSuspeita) casoVazioPowerBI

/-- A state of the older implementation holding one confirmed row, with the
dictionary as its constructor initializes it. -/
def relPowerBI : PowerBI.Relatorio :=
  { rows := [linhaConfirmada]
    casosMunicipios := PowerBI.inicializa_dicionario_municipios msUm
    importadosCasosConfirmados := 0
    importadosObitos := 0
    totalCasosConfirmados := 0
    totalObitos := 0
    nMunicipiosInfectados := 0 }

/-- The older state after one aggregation pass over relPowerBI. -/
def relPowerBISaida : PowerBI.Relatorio :=
  valorOu (PowerBI.popula_relatorio msUm relPowerBI) relPowerBI

/-- Inversion of a successful Except bind. -/
theorem bindOk {α β : Type} {x : Except Erro α} {f : α → Except Erro β} {b : β}
    (h : Bind.bind x f = Except.ok b) : ∃ a, x = Except.ok a ∧ f a = Except.ok b := by
  cases x with
  | ok a => exact ⟨a, rfl, h⟩
  | error e => exact Except.noConfusion h

/-- A successful indexed access of the normalized row exposes the element. -/
theorem obtemCamp_get {camps : List Camp} {i : Nat} {c : Camp}
    (h : obtemCamp camps i = Except.ok c) : camps.get? i = some c := by
  unfold obtemCamp at h
  cases hg : camps.get? i with
  | some x => rw [hg] at h; cases h; rfl
  | none => rw [hg] at h; cases h

/-- A successful indexed access of the raw row exposes the element. -/
theorem obtem_get {linha : List Bruto} {i : Nat} {b : Bruto}
    (h : obtem linha i = Except.ok b) : linha.get? i = some b := by
  unfold obtem at h
  cases hg : linha.get? i with
  | some x => rw [hg] at h; cases h; rfl
  | none => rw [hg] at h; cases h

/-- mapComIndice preserves length. -/
theorem mapComIndice_length (f : Nat → Bruto → Camp) (l : List Bruto) :
    ∀ i, (mapComIndice f i l).length = l.length := by
  induction l with
  | nil => intro i; rfl
  | cons b bs ih => intro i; simp [mapComIndice, ih]

/-- Element of mapComIndice at a position. -/
theorem mapComIndice_get (f : Nat → Bruto → Camp) (l : List Bruto) :
    ∀ i j, (mapComIndice f i l).get? j = (l.get? j).map (fun b => f (i + j) b) := by
  induction l with
  | nil => intro i j; simp [mapComIndice]
  | cons b bs ih =>
    intro i j
    cases j with
    | zero => simp [mapComIndice]
    | succ j =>
      have harr : i + 1 + j = i + (j + 1) := by omega
      show (mapComIndice f (i + 1) bs).get? j = (bs.get? j).map (fun x => f (i + (j + 1)) x)
      rw [ih (i + 1) j, harr]

/-- Looking up the altered key sees the altered value. -/
theorem procuraChave_altera {α : Type} (l : List (String × α)) (m : String) (g : α → α) :
    procuraChave (alteraChave l m g) m = (procuraChave l m).map g := by
  induction l with
  | nil => rfl
  | cons p resto ih =>
    obtain ⟨k, v⟩ := p
    by_cases hk : k = m
    · simp [alteraChave, procuraChave, hk]
    · simp [alteraChave, procuraChave, hk, ih]

/-- Altering a key present in the dictionary shifts the bucket sum by the
change of the altered bucket. -/
theorem somaPor_altera {α : Type} (f : Municipio α → Nat) (g : Municipio α → Municipio α)
    (l : List (String × Municipio α)) (m : String) (b : Municipio α)
    (h : procuraChave l m = some b) :
    somaPor f (alteraChave l m g) + f b = somaPor f l + f (g b) := by
  induction l with
  | nil => cases h
  | cons p resto ih =>
    obtain ⟨k, v⟩ := p
    by_cases hk : k = m
    · rw [procuraChave, if_pos hk] at h
      cases h
      simp [alteraChave, hk, somaPor]
      omega
    · rw [procuraChave, if_neg hk] at h
      have := ih h
      simp [alteraChave, hk, somaPor]
      omega

/-- Altering with a projection-preserving change keeps the bucket sum. -/
theorem somaPor_altera_inv {α : Type} (f : Municipio α → Nat) (g : Municipio α → Municipio α)
    (hf : ∀ x, f (g x) = f x) (l : List (String × Municipio α)) (m : String) :
    somaPor f (alteraChave l m g) = somaPor f l := by
  induction l with
  | nil => rfl
  | cons p resto ih =>
    obtain ⟨k, v⟩ := p
    by_cases hk : k = m
    · simp [alteraChave, hk, somaPor, hf]
    · simp [alteraChave, hk, somaPor, ih]

/-- Bucket sums over the freshly initialized municipality dictionary vanish
for projections that are zero on fresh buckets. -/
theorem somaPor_inicializa (f : Municipio Caso → Nat)
    (hf : ∀ nome, f (municipioNovo nome) = 0) (municipios : List String) :
    somaPor f (inicializa_dicionario_municipios municipios) = 0 := by
  induction municipios with
  | nil => rfl
  | cons m resto ih =>
    show f (municipioNovo m) + somaPor f (inicializa_dicionario_municipios resto) = 0
    rw [hf, ih]

/-- Inversion of a successful field normalization: the specially treated
positions were all present, the first cell parsed as a strict date, the
substring-sentinel cells were strings, and the result is the positional
rewrite of the raw row. -/
theorem trata_forma {linha : List Bruto} {camps : List Camp}
    (h : trata_dados_linha linha = Except.ok camps) :
    ∃ (s : String) (d : Data) (b2 b3 b6 b9 b10 b11 : Bruto) (c3 c9 c10 c11 : Camp),
      linha.get? 0 = some (Bruto.texto s) ∧ parseData s = some d ∧
      linha.get? 2 = some b2 ∧ linha.get? 3 = some b3 ∧ linha.get? 6 = some b6 ∧
      linha.get? 9 = some b9 ∧ linha.get? 10 = some b10 ∧ linha.get? 11 = some b11 ∧
      trataContem "-" b3 = Except.ok c3 ∧ trataContem "Ignorado" b9 = Except.ok c9 ∧
      trataContem "Ignorado" b10 = Except.ok c10 ∧ trataContem "-" b11 = Except.ok c11 ∧
      camps = mapComIndice (montaCamp d (trataSentinelasIgual ["Ignorado", "-"] b2) c3
        (trataSentinelasIgual ["Não encontrado", "NULL"] b6) c9 c10 c11) 0 linha := by
  unfold trata_dados_linha at h
  obtain ⟨b0, h0, h⟩ := bindOk h
  obtain ⟨d, hd, h⟩ := bindOk h
  obtain ⟨b2, h2, h⟩ := bindOk h
  obtain ⟨b3, h3, h⟩ := bindOk h
  obtain ⟨c3, hc3, h⟩ := bindOk h
  obtain ⟨b6, h6, h⟩ := bindOk h
  obtain ⟨b9, h9, h⟩ := bindOk h
  obtain ⟨c9, hc9, h⟩ := bindOk h
  obtain ⟨b10, h10, h⟩ := bindOk h
  obtain ⟨c10, hc10, h⟩ := bindOk h
  obtain ⟨b11, h11, h⟩ := bindOk h
  obtain ⟨c11, hc11, hfinal⟩ := bindOk h
  cases b0 with
  | numero n => exact Except.noConfusion hd
  | texto s =>
    have hd2 : (match parseData s with
        | some d => Except.ok d
        | none => (Except.error Erro.parse : Except Erro Data)) = Except.ok d := hd
    cases hp : parseData s with
    | none => rw [hp] at hd2; cases hd2
    | some d2 =>
      rw [hp] at hd2
      cases hd2
      cases hfinal
      exact ⟨s, d, b2, b3, b6, b9, b10, b11, c3, c9, c10, c11,
        obtem_get h0, hp, obtem_get h2, obtem_get h3, obtem_get h6, obtem_get h9,
        obtem_get h10, obtem_get h11, hc3, hc9, hc10, hc11, rfl⟩

/-- Inversion of a successful case-record construction in relatorio.py:
normalization succeeded, the row has at least the 27 required positions, and
every field of the record is the normalized cell of its mapped position. -/
theorem carrega_forma {linha : List Bruto} {caso : Caso}
    (h : carrega_dados_linha linha = Except.ok caso) :
    ∃ camps : List Camp, trata_dados_linha linha = Except.ok camps ∧
      camps.length = linha.length ∧ 27 ≤ linha.length ∧
      camps.get? 0 = some (Camp.dataC caso.data) ∧
      camps.get? 1 = some caso.classificacao ∧
      camps.get? 2 = some caso.evolucao ∧
      camps.get? 3 = some caso.criterioConfirmacao ∧
      camps.get? 5 = some caso.municipio ∧
      (∃ c11 c12 c13 c14 c15 c16 c17 : Camp,
        camps.get? 11 = some c11 ∧ camps.get? 12 = some c12 ∧ camps.get? 13 = some c13 ∧
        camps.get? 14 = some c14 ∧ camps.get? 15 = some c15 ∧ camps.get? 16 = some c16 ∧
        camps.get? 17 = some c17 ∧
        caso.sintomas = [("febre", c11), ("dificuldadeRespiratoria", c12), ("tosse", c13),
          ("coriza", c14), ("dorGarganta", c15), ("diarreia", c16), ("cefaleia", c17)]) ∧
      (∃ c18 c19 c20 c21 c22 c23 : Camp,
        camps.get? 18 = some c18 ∧ camps.get? 19 = some c19 ∧ camps.get? 20 = some c20 ∧
        camps.get? 21 = some c21 ∧ camps.get? 22 = some c22 ∧ camps.get? 23 = some c23 ∧
        caso.comorbidades = [("comorbidadePulmao", c18), ("comorbidadeCardio", c19),
          ("comorbidadeRenal", c20), ("comorbidadeDiabetes", c21),
          ("comorbidadeTabagismo", c22), ("comorbidadeObesidade", c23)]) ∧
      camps.get? 24 = some caso.ficouInternado ∧
      camps.get? 25 = some caso.viagemBrasil ∧
      camps.get? 26 = some caso.viagemInternacional := by
  unfold carrega_dados_linha at h
  obtain ⟨camps, hcamps, h⟩ := bindOk h
  obtain ⟨c0, h0, h⟩ := bindOk h
  obtain ⟨d, hd, h⟩ := bindOk h
  obtain ⟨c1, h1, h⟩ := bindOk h
  obtain ⟨c2, h2, h⟩ := bindOk h
  obtain ⟨c3, h3, h⟩ := bindOk h
  obtain ⟨c4, h4, h⟩ := bindOk h
  obtain ⟨c5, h5, h⟩ := bindOk h
  obtain ⟨c6, h6, h⟩ := bindOk h
  obtain ⟨c7, h7, h⟩ := bindOk h
  obtain ⟨c8, h8, h⟩ := bindOk h
  obtain ⟨c9, h9, h⟩ := bindOk h
  obtain ⟨c10, h10, h⟩ := bindOk h
  obtain ⟨c11, h11, h⟩ := bindOk h
  obtain ⟨c12, h12, h⟩ := bindOk h
  obtain ⟨c13, h13, h⟩ := bindOk h
  obtain ⟨c14, h14, h⟩ := bindOk h
  obtain ⟨c15, h15, h⟩ := bindOk h
  obtain ⟨c16, h16, h⟩ := bindOk h
  obtain ⟨c17, h17, h⟩ := bindOk h
  obtain ⟨c18, h18, h⟩ := bindOk h
  obtain ⟨c19, h19, h⟩ := bindOk h
  obtain ⟨c20, h20, h⟩ := bindOk h
  obtain ⟨c21, h21, h⟩ := bindOk h
  obtain ⟨c22, h22, h⟩ := bindOk h
  obtain ⟨c23, h23, h⟩ := bindOk h
  obtain ⟨c24, h24, h⟩ := bindOk h
  obtain ⟨c25, h25, h⟩ := bindOk h
  obtain ⟨c26, h26, hfinal⟩ := bindOk h
  have hlen : camps.length = linha.length := by
    obtain ⟨s, d2, b2, b3, b6, b9, b10, b11, x3, x9, x10, x11,
      hs0, hsp, hs2, hs3, hs6, hs9, hs10, hs11, ht3, ht9, ht10, ht11, hcampsEq⟩ :=
      trata_forma hcamps
    rw [hcampsEq, mapComIndice_length]
  have h27 : 27 ≤ camps.length := by
    have hg := obtemCamp_get h26
    obtain ⟨hlt, -⟩ := List.get?_eq_some.mp hg
    omega
  cases c0 with
  | dataC d0 =>
    have hdd : d0 = d := by
      have hd2 : (Except.ok d0 : Except Erro Data) = Except.ok d := hd
      cases hd2
      rfl
    cases hfinal
    refine ⟨camps, hcamps, hlen, by omega, ?_, ?_, ?_, ?_, ?_, ?_, ?_, ?_, ?_, ?_⟩
    · rw [obtemCamp_get h0, hdd]
    · exact obtemCamp_get h1
    · exact obtemCamp_get h2
    · exact obtemCamp_get h3
    · exact obtemCamp_get h5
    · exact ⟨c11, c12, c13, c14, c15, c16, c17, obtemCamp_get h11, obtemCamp_get h12,
        obtemCamp_get h13, obtemCamp_get h14, obtemCamp_get h15, obtemCamp_get h16,
        obtemCamp_get h17, rfl⟩
    · exact ⟨c18, c19, c20, c21, c22, c23, obtemCamp_get h18, obtemCamp_get h19,
        obtemCamp_get h20, obtemCamp_get h21, obtemCamp_get h22, obtemCamp_get h23, rfl⟩
    · exact obtemCamp_get h24
    · exact obtemCamp_get h25
    · exact obtemCamp_get h26
  | texto s => exact Except.noConfusion hd
  | numero n => exact Except.noConfusion hd
  | nulo => exact Except.noConfusion hd
  | booleano b => exact Except.noConfusion hd

/-- C4, counterexample: the confirmation-criterion column (position 3) of a
row is replaced by unknown for the cell PCR-RT, which contains the sentinel
dash as a substring but does not equal it, refuting that replacement happens
exactly on equality with a sentinel. -/
theorem C4_counterexample :
    (trata_dados_linha linhaCriterioComTraco).map (fun camps => camps.get? 3)
        = Except.ok (some Camp.nulo) ∧
    linhaCriterioComTraco.get? 3 = some (Bruto.texto "PCR-RT") ∧
    ("PCR-RT" : String) ≠ "-" := by
  exact ⟨rfl, rfl, by decide⟩

/-- C4 (amended): field normalization nulls position 2 exactly on equality
with one of Ignorado and -, and position 6 exactly on equality with one of
Não encontrado and NULL, while positions 3 and 11 are nulled whenever the
text contains - as a substring and positions 9 and 10 whenever the text
contains Ignorado as a substring; any other text in those columns passes
through unchanged. -/
theorem C4_sentinelas_amended {linha : List Bruto} {camps : List Camp}
    (h : trata_dados_linha linha = Except.ok camps) :
    (∀ s : String, linha.get? 2 = some (Bruto.texto s) →
      camps.get? 2 = some (if s ∈ (["Ignorado", "-"] : List String) then Camp.nulo else Camp.texto s)) ∧
    (∀ s : String, linha.get? 3 = some (Bruto.texto s) →
      camps.get? 3 = some (if contemSubstring "-" s then Camp.nulo else Camp.texto s)) ∧
    (∀ s : String, linha.get? 6 = some (Bruto.texto s) →
      camps.get? 6 = some (if s ∈ (["Não encontrado", "NULL"] : List String) then Camp.nulo else Camp.texto s)) ∧
    (∀ s : String, linha.get? 9 = some (Bruto.texto s) →
      camps.get? 9 = some (if contemSubstring "Ignorado" s then Camp.nulo else Camp.texto s)) ∧
    (∀ s : String, linha.get? 10 = some (Bruto.texto s) →
      camps.get? 10 = some (if contemSubstring "Ignorado" s then Camp.nulo else Camp.texto s)) ∧
    (∀ s : String, linha.get? 11 = some (Bruto.texto s) →
      camps.get? 11 = some (if contemSubstring "-" s then Camp.nulo else Camp.texto s)) := by
  obtain ⟨s0, d, b2, b3, b6, b9, b10, b11, c3, c9, c10, c11,
    hs0, hsp, h2, h3, h6, h9, h10, h11, ht3, ht9, ht10, ht11, hEq⟩ := trata_forma h
  subst hEq
  refine ⟨?_, ?_, ?_, ?_, ?_, ?_⟩
  · intro s hs
    rw [h2] at hs
    cases hs
    rw [mapComIndice_get, h2]
    rfl
  · intro s hs
    rw [h3] at hs
    cases hs
    have hc : (Except.ok (if contemSubstring "-" s then Camp.nulo else Camp.texto s) :
        Except Erro Camp) = Except.ok c3 := ht3
    cases hc
    rw [mapComIndice_get, h3]
    rfl
  · intro s hs
    rw [h6] at hs
    cases hs
    rw [mapComIndice_get, h6]
    rfl
  · intro s hs
    rw [h9] at hs
    cases hs
    have hc : (Except.ok (if contemSubstring "Ignorado" s then Camp.nulo else Camp.texto s) :
        Except Erro Camp) = Except.ok c9 := ht9
    cases hc
    rw [mapComIndice_get, h9]
    rfl
  · intro s hs
    rw [h10] at hs
    cases hs
    have hc : (Except.ok (if contemSubstring "Ignorado" s then Camp.nulo else Camp.texto s) :
        Except Erro Camp) = Except.ok c10 := ht10
    cases hc
    rw [mapComIndice_get, h10]
    rfl
  · intro s hs
    rw [h11] at hs
    cases hs
    have hc : (Except.ok (if contemSubstring "-" s then Camp.nulo else Camp.texto s) :
        Except Erro Camp) = Except.ok c11 := ht11
    cases hc
    rw [mapComIndice_get, h11]
    rfl

/-- C4 (amended), witness at the concrete dashed-criterion row. -/
theorem C4_sentinelas_amended_witness :
    campsCriterio.get? 3 = some (if contemSubstring "-" "PCR-RT" then Camp.nulo else Camp.texto "PCR-RT") ∧
    campsCriterio.get? 10 = some (if contemSubstring "Ignorado" "Superior" then Camp.nulo else Camp.texto "Superior") := by
  have h := @C4_sentinelas_amended linhaCriterioComTraco campsCriterio rfl
  exact ⟨h.2.1 "PCR-RT" rfl, h.2.2.2.2.1 "Superior" rfl⟩

/-- The boolean vocabulary only produces explicit booleans or unknown. -/
theorem ehBoolAnulavel_stringParaBool (b : Bruto) :
    ehBoolAnulavel (stringParaBool b) = true := by
  unfold stringParaBool
  split_ifs <;> rfl

/-- Above position 11 the positional rewrite is the boolean vocabulary. -/
theorem montaCamp_alto (d : Data) (x2 x3 x6 x9 x10 x11 : Camp) (i : Nat) (b : Bruto)
    (h12 : 12 ≤ i) : montaCamp d x2 x3 x6 x9 x10 x11 i b = stringParaBool b := by
  unfold montaCamp
  rw [if_neg (by omega), if_neg (by omega), if_neg (by omega), if_neg (by omega),
    if_neg (by omega), if_neg (by omega), if_neg (by omega), if_pos h12]

/-- A normalized cell at a position from 12 on is the vocabulary image of
the raw cell at that position. -/
theorem campsPos_bool {linha : List Bruto} {camps : List Camp} {i : Nat} {c : Camp}
    (h : trata_dados_linha linha = Except.ok camps) (h12 : 12 ≤ i)
    (hc : camps.get? i = some c) :
    ∃ b : Bruto, linha.get? i = some b ∧ c = stringParaBool b := by
  obtain ⟨s0, d, b2, b3, b6, b9, b10, b11, x3, x9, x10, x11, hs0, hsp,
    h2, h3, h6, h9, h10, h11, ht3, ht9, ht10, ht11, hEq⟩ := trata_forma h
  subst hEq
  rw [mapComIndice_get] at hc
  cases hb : linha.get? i with
  | none => rw [hb] at hc; cases hc
  | some b =>
    rw [hb] at hc
    injection hc with hcc
    refine ⟨b, rfl, ?_⟩
    rw [← hcc, Nat.zero_add]
    exact montaCamp_alto _ _ _ _ _ _ _ _ _ h12

/-- C5, counterexample: the symptom field febre of the Case Record built
from a row whose position-11 cell is the raw text Sim stays the raw string
Sim, which is not a nullable boolean, refuting that every symptom field of
the constructed record is a nullable boolean. -/
theorem C5_counterexample :
    (carrega_dados_linha linhaConfirmada).map (fun caso => procuraChave caso.sintomas "febre")
        = Except.ok (some (Camp.texto "Sim")) ∧
    ehBoolAnulavel (Camp.texto "Sim") = false := by
  exact ⟨rfl, rfl⟩

/-- C5 (amended): the flag columns from position 12 on map through the fixed
vocabulary (Sim to true, Não to false, empty and dash to unknown, 1 to true,
2 to unknown, anything else to unknown), so every comorbidity,
hospitalization and travel field and every symptom field other than the
position-11 one (febre) of the constructed Case Record is a nullable
boolean; the position-11 flag column is only nulled when its text contains a
dash and otherwise stays raw text. -/
theorem C5_vocabulario_amended {linha : List Bruto} {caso : Caso}
    (h : carrega_dados_linha linha = Except.ok caso) :
    stringParaBool (Bruto.texto "Sim") = Camp.booleano true ∧
    stringParaBool (Bruto.texto "Não") = Camp.booleano false ∧
    stringParaBool (Bruto.texto "") = Camp.nulo ∧
    stringParaBool (Bruto.texto "-") = Camp.nulo ∧
    stringParaBool (Bruto.numero 1) = Camp.booleano true ∧
    stringParaBool (Bruto.numero 2) = Camp.nulo ∧
    (∀ s : String, s ∉ (["Sim", "Não", "-", ""] : List String) →
      stringParaBool (Bruto.texto s) = Camp.nulo) ∧
    (∀ n : Int, n ≠ 1 → n ≠ 2 → stringParaBool (Bruto.numero n) = Camp.nulo) ∧
    (∀ nome c, (nome, c) ∈ caso.sintomas → nome ≠ "febre" → ehBoolAnulavel c = true) ∧
    (∀ nome c, (nome, c) ∈ caso.comorbidades → ehBoolAnulavel c = true) ∧
    ehBoolAnulavel caso.ficouInternado = true ∧
    ehBoolAnulavel caso.viagemBrasil = true ∧
    ehBoolAnulavel caso.viagemInternacional = true ∧
    (∀ s : String, linha.get? 11 = some (Bruto.texto s) → contemSubstring "-" s = false →
      procuraChave caso.sintomas "febre" = some (Camp.texto s)) := by
  obtain ⟨camps, hcamps, hlen, h27, hg0, hg1, hg2, hg3, hg5,
    ⟨c11, c12, c13, c14, c15, c16, c17, hg11, hg12, hg13, hg14, hg15, hg16, hg17, hsint⟩,
    ⟨c18, c19, c20, c21, c22, c23, hg18, hg19, hg20, hg21, hg22, hg23, hcom⟩,
    hg24, hg25, hg26⟩ := carrega_forma h
  obtain ⟨b12, hb12, he12⟩ := campsPos_bool hcamps (by omega) hg12
  obtain ⟨b13, hb13, he13⟩ := campsPos_bool hcamps (by omega) hg13
  obtain ⟨b14, hb14, he14⟩ := campsPos_bool hcamps (by omega) hg14
  obtain ⟨b15, hb15, he15⟩ := campsPos_bool hcamps (by omega) hg15
  obtain ⟨b16, hb16, he16⟩ := campsPos_bool hcamps (by omega) hg16
  obtain ⟨b17, hb17, he17⟩ := campsPos_bool hcamps (by omega) hg17
  obtain ⟨b18, hb18, he18⟩ := campsPos_bool hcamps (by omega) hg18
  obtain ⟨b19, hb19, he19⟩ := campsPos_bool hcamps (by omega) hg19
  obtain ⟨b20, hb20, he20⟩ := campsPos_bool hcamps (by omega) hg20
  obtain ⟨b21, hb21, he21⟩ := campsPos_bool hcamps (by omega) hg21
  obtain ⟨b22, hb22, he22⟩ := campsPos_bool hcamps (by omega) hg22
  obtain ⟨b23, hb23, he23⟩ := campsPos_bool hcamps (by omega) hg23
  obtain ⟨b24, hb24, he24⟩ := campsPos_bool hcamps (by omega) hg24
  obtain ⟨b25, hb25, he25⟩ := campsPos_bool hcamps (by omega) hg25
  obtain ⟨b26, hb26, he26⟩ := campsPos_bool hcamps (by omega) hg26
  refine ⟨rfl, rfl, rfl, rfl, rfl, rfl, ?_, ?_, ?_, ?_, ?_, ?_, ?_, ?_⟩
  · intro s hs
    simp only [List.mem_cons, List.not_mem_nil, or_false, not_or] at hs
    obtain ⟨hA, hB, hC, hD⟩ := hs
    simp [stringParaBool, hA, hB, hC, hD]
  · intro n h1 h2
    simp [stringParaBool, h1, h2]
  · intro nome c hmem hnome
    rw [hsint] at hmem
    simp only [List.mem_cons, List.not_mem_nil, or_false, Prod.mk.injEq] at hmem
    rcases hmem with ⟨hn, hc⟩ | ⟨hn, hc⟩ | ⟨hn, hc⟩ | ⟨hn, hc⟩ | ⟨hn, hc⟩ | ⟨hn, hc⟩ | ⟨hn, hc⟩
    · exact absurd hn hnome
    · subst hc; rw [he12]; exact ehBoolAnulavel_stringParaBool b12
    · subst hc; rw [he13]; exact ehBoolAnulavel_stringParaBool b13
    · subst hc; rw [he14]; exact ehBoolAnulavel_stringParaBool b14
    · subst hc; rw [he15]; exact ehBoolAnulavel_stringParaBool b15
    · subst hc; rw [he16]; exact ehBoolAnulavel_stringParaBool b16
    · subst hc; rw [he17]; exact ehBoolAnulavel_stringParaBool b17
  · intro nome c hmem
    rw [hcom] at hmem
    simp only [List.mem_cons, List.not_mem_nil, or_false, Prod.mk.injEq] at hmem
    rcases hmem with ⟨hn, hc⟩ | ⟨hn, hc⟩ | ⟨hn, hc⟩ | ⟨hn, hc⟩ | ⟨hn, hc⟩ | ⟨hn, hc⟩
    · subst hc; rw [he18]; exact ehBoolAnulavel_stringParaBool b18
    · subst hc; rw [he19]; exact ehBoolAnulavel_stringParaBool b19
    · subst hc; rw [he20]; exact ehBoolAnulavel_stringParaBool b20
    · subst hc; rw [he21]; exact ehBoolAnulavel_stringParaBool b21
    · subst hc; rw [he22]; exact ehBoolAnulavel_stringParaBool b22
    · subst hc; rw [he23]; exact ehBoolAnulavel_stringParaBool b23
  · rw [he24]; exact ehBoolAnulavel_stringParaBool b24
  · rw [he25]; exact ehBoolAnulavel_stringParaBool b25
  · rw [he26]; exact ehBoolAnulavel_stringParaBool b26
  · intro s hs hnc
    obtain ⟨s0, d, b2, b3, b6, b9, b10, b11, x3, x9, x10, x11, hs0, hsp,
      ht2, ht3, ht6, ht9, ht10, ht11, hx3, hx9, hx10, hx11, hEq⟩ := trata_forma hcamps
    rw [ht11] at hs
    cases hs
    have hx11s : (Except.ok (if contemSubstring "-" s then Camp.nulo else Camp.texto s) :
        Except Erro Camp) = Except.ok x11 := hx11
    rw [hnc] at hx11s
    have hx11v : Camp.texto s = x11 := by
      injection hx11s
    rw [hEq, mapComIndice_get, ht11] at hg11
    injection hg11 with hg11v
    have hc11v : c11 = Camp.texto s := by
      rw [← hg11v, ← hx11v]
      rfl
    rw [hsint, ← hc11v]
    rfl

/-- C5 (amended), witness at the confirmed concrete row: hospitalization is
a nullable boolean and the position-11 symptom keeps the raw text Sim. -/
theorem C5_vocabulario_amended_witness :
    ehBoolAnulavel casoConfirmado.ficouInternado = true ∧
    procuraChave casoConfirmado.sintomas "febre" = some (Camp.texto "Sim") := by
  have h := @C5_vocabulario_amended linhaConfirmada casoConfirmado rfl
  obtain ⟨-, -, -, -, -, -, -, -, -, -, hfi, -, -, hfeb⟩ := h
  exact ⟨hfi, hfeb "Sim" rfl rfl⟩

/-- Scalar counters of the classified tally, as functions of the previous
state: the global confirmed total always grows by one, the unclassified
counters stay put, deaths grow with the death literal, and the
newly-infected counter grows exactly on a zero bucket. -/
theorem aplicaClassificado_campos (caso : Caso) (m : String) (bucket : Municipio Caso)
    (rel : Relatorio) :
    (aplicaClassificado caso m bucket rel).linhasRelatorio = rel.linhasRelatorio ∧
    (aplicaClassificado caso m bucket rel).totalCasosConfirmados = rel.totalCasosConfirmados + 1 ∧
    (aplicaClassificado caso m bucket rel).importadosCasosConfirmados = rel.importadosCasosConfirmados ∧
    (aplicaClassificado caso m bucket rel).importadosObitos = rel.importadosObitos ∧
    (aplicaClassificado caso m bucket rel).totalObitos
      = rel.totalObitos + (if caso.evolucao = Camp.texto "Óbito pelo COVID-19" then 1 else 0) ∧
    (aplicaClassificado caso m bucket rel).nMunicipiosInfectados
      = (if bucket.casosConfirmados = 0 then rel.nMunicipiosInfectados + 1
         else rel.nMunicipiosInfectados) := by
  unfold aplicaClassificado
  by_cases hz : bucket.casosConfirmados = 0 <;>
    by_cases hd : caso.evolucao = Camp.texto "Óbito pelo COVID-19" <;>
      simp [hz, hd]

/-- The municipality dictionary of the classified tally as the explicit
chain of the three in-place bucket updates of the source. -/
theorem aplicaClassificado_casosMunicipios (caso : Caso) (m : String) (bucket : Municipio Caso)
    (rel : Relatorio) :
    (aplicaClassificado caso m bucket rel).casosMunicipios
      = alteraChave (alteraChave (if caso.evolucao = Camp.texto "Óbito pelo COVID-19"
            then alteraChave rel.casosMunicipios m (fun b => { b with obitos := b.obitos + 1 })
            else rel.casosMunicipios) m (fun b => { b with casos := b.casos ++ [caso] })) m
          (fun b => { b with casosConfirmados := b.casosConfirmados + 1 }) := by
  unfold aplicaClassificado
  by_cases hz : bucket.casosConfirmados = 0 <;>
    by_cases hd : caso.evolucao = Camp.texto "Óbito pelo COVID-19" <;>
      simp [hz, hd]

/-- Bucket sums and the tallied bucket after the classified tally. -/
theorem aplicaClassificado_dict (caso : Caso) (m : String) (bucket : Municipio Caso)
    (rel : Relatorio) (hpc : procuraChave rel.casosMunicipios m = some bucket) :
    somaPor (fun b => b.casosConfirmados) (aplicaClassificado caso m bucket rel).casosMunicipios
      = somaPor (fun b => b.casosConfirmados) rel.casosMunicipios + 1 ∧
    somaPor (fun b => b.obitos) (aplicaClassificado caso m bucket rel).casosMunicipios
      = somaPor (fun b => b.obitos) rel.casosMunicipios
        + (if caso.evolucao = Camp.texto "Óbito pelo COVID-19" then 1 else 0) ∧
    (procuraChave (aplicaClassificado caso m bucket rel).casosMunicipios m).map
        (fun b => b.casosConfirmados)
      = some (bucket.casosConfirmados + 1) := by
  rw [aplicaClassificado_casosMunicipios]
  by_cases hd : caso.evolucao = Camp.texto "Óbito pelo COVID-19"
  case pos =>
    simp only [if_pos hd]
    have hpc2 : procuraChave (alteraChave rel.casosMunicipios m
        (fun b => { b with obitos := b.obitos + 1 })) m
        = some { bucket with obitos := bucket.obitos + 1 } := by
      rw [procuraChave_altera, hpc]
      rfl
    have hpc3 : procuraChave (alteraChave (alteraChave rel.casosMunicipios m
        (fun b => { b with obitos := b.obitos + 1 })) m
          (fun b => { b with casos := b.casos ++ [caso] })) m
        = some { bucket with obitos := bucket.obitos + 1, casos := bucket.casos ++ [caso] } := by
      rw [procuraChave_altera, hpc2]
      rfl
    refine ⟨?_, ?_, ?_⟩
    · have s2 := somaPor_altera_inv (fun b => b.casosConfirmados)
        (fun b => { b with obitos := b.obitos + 1 }) (fun x => rfl) rel.casosMunicipios m
      have s3 := somaPor_altera_inv (fun b => b.casosConfirmados)
        (fun b => { b with casos := b.casos ++ [caso] }) (fun x => rfl)
        (alteraChave rel.casosMunicipios m (fun b => { b with obitos := b.obitos + 1 })) m
      have s4 := somaPor_altera (fun b => b.casosConfirmados)
        (fun b => { b with casosConfirmados := b.casosConfirmados + 1 }) _ m _ hpc3
      simp only [] at s4
      omega
    · have s2 := somaPor_altera (fun b => b.obitos)
        (fun b => { b with obitos := b.obitos + 1 }) rel.casosMunicipios m bucket hpc
      have s3 := somaPor_altera_inv (fun b => b.obitos)
        (fun b => { b with casos := b.casos ++ [caso] }) (fun x => rfl)
        (alteraChave rel.casosMunicipios m (fun b => { b with obitos := b.obitos + 1 })) m
      have s4 := somaPor_altera_inv (fun b => b.obitos)
        (fun b => { b with casosConfirmados := b.casosConfirmados + 1 }) (fun x => rfl)
        (alteraChave (alteraChave rel.casosMunicipios m (fun b => { b with obitos := b.obitos + 1 })) m
          (fun b => { b with casos := b.casos ++ [caso] })) m
      simp only [] at s2
      omega
    · rw [procuraChave_altera, hpc3]
      rfl
  case neg =>
    simp only [if_neg hd]
    have hpc3 : procuraChave (alteraChave rel.casosMunicipios m
        (fun b => { b with casos := b.casos ++ [caso] })) m
        = some { bucket with casos := bucket.casos ++ [caso] } := by
      rw [procuraChave_altera, hpc]
      rfl
    refine ⟨?_, ?_, ?_⟩
    · have s3 := somaPor_altera_inv (fun b => b.casosConfirmados)
        (fun b => { b with casos := b.casos ++ [caso] }) (fun x => rfl) rel.casosMunicipios m
      have s4 := somaPor_altera (fun b => b.casosConfirmados)
        (fun b => { b with casosConfirmados := b.casosConfirmados + 1 }) _ m _ hpc3
      simp only [] at s4
      omega
    · have s3 := somaPor_altera_inv (fun b => b.obitos)
        (fun b => { b with casos := b.casos ++ [caso] }) (fun x => rfl) rel.casosMunicipios m
      have s4 := somaPor_altera_inv (fun b => b.obitos)
        (fun b => { b with casosConfirmados := b.casosConfirmados + 1 }) (fun x => rfl)
        (alteraChave rel.casosMunicipios m (fun b => { b with casos := b.casos ++ [caso] })) m
      omega
    · rw [procuraChave_altera, hpc3]
      rfl

/-- All fields of the unclassified tally as functions of the previous state. -/
theorem aplicaImportado_campos (caso : Caso) (rel : Relatorio) :
    (aplicaImportado caso rel).linhasRelatorio = rel.linhasRelatorio ∧
    (aplicaImportado caso rel).totalCasosConfirmados = rel.totalCasosConfirmados + 1 ∧
    (aplicaImportado caso rel).importadosCasosConfirmados = rel.importadosCasosConfirmados + 1 ∧
    (aplicaImportado caso rel).importadosObitos
      = rel.importadosObitos + (if caso.evolucao = Camp.texto "Óbito pelo COVID-19" then 1 else 0) ∧
    (aplicaImportado caso rel).totalObitos
      = rel.totalObitos + (if caso.evolucao = Camp.texto "Óbito pelo COVID-19" then 1 else 0) ∧
    (aplicaImportado caso rel).nMunicipiosInfectados = rel.nMunicipiosInfectados ∧
    (aplicaImportado caso rel).casosMunicipios = rel.casosMunicipios := by
  unfold aplicaImportado
  by_cases hd : caso.evolucao = Camp.texto "Óbito pelo COVID-19" <;> simp [hd]

/-- Inversion of one successful loop iteration: the Caso was built, its
municipality is a string, and the result is the classified or the
unclassified tally according to the membership test. -/
theorem processa_forma {municipios : List String} {st st2 : Relatorio} {linha : List Bruto}
    (h : processa_linha municipios st linha = Except.ok st2) :
    ∃ caso, carrega_dados_linha linha = Except.ok caso ∧
    ∃ m, caso.municipio = Camp.texto m ∧
    ((∃ bucket, municipios.contains (removeCaracteresEspeciais (maiuscula m)) = true ∧
        procuraChave st.casosMunicipios m = some bucket ∧
        st2 = aplicaClassificado caso m bucket st) ∨
     (¬ municipios.contains (removeCaracteresEspeciais (maiuscula m)) = true ∧
        st2 = aplicaImportado caso st)) := by
  unfold processa_linha at h
  cases hca : carrega_dados_linha linha with
  | error e => rw [hca] at h; cases h
  | ok caso =>
    rw [hca] at h
    refine ⟨caso, rfl, ?_⟩
    have h2 : (match caso.municipio with
      | Camp.texto m =>
        if municipios.contains (removeCaracteresEspeciais (maiuscula m)) = true then
          match procuraChave st.casosMunicipios m with
          | none => Except.error (Erro.chave m)
          | some bucket => Except.ok (aplicaClassificado caso m bucket st)
        else Except.ok (aplicaImportado caso st)
      | _ => Except.error Erro.tipo) = Except.ok st2 := h
    clear h
    cases hm : caso.municipio with
    | texto m =>
      rw [hm] at h2
      have h3 : (if municipios.contains (removeCaracteresEspeciais (maiuscula m)) = true then
          match procuraChave st.casosMunicipios m with
          | none => Except.error (Erro.chave m)
          | some bucket => Except.ok (aplicaClassificado caso m bucket st)
        else Except.ok (aplicaImportado caso st)) = Except.ok st2 := h2
      refine ⟨m, rfl, ?_⟩
      by_cases hmem : municipios.contains (removeCaracteresEspeciais (maiuscula m)) = true
      · rw [if_pos hmem] at h3
        cases hpc : procuraChave st.casosMunicipios m with
        | none => rw [hpc] at h3; exact Except.noConfusion h3
        | some bucket =>
          rw [hpc] at h3
          have h4 : Except.ok (aplicaClassificado caso m bucket st) = Except.ok st2 := h3
          cases h4
          exact Or.inl ⟨bucket, hmem, rfl, rfl⟩
      · rw [if_neg hmem] at h3
        have h4 : Except.ok (aplicaImportado caso st) = Except.ok st2 := h3
        cases h4
        exact Or.inr ⟨hmem, rfl⟩
    | dataC d => rw [hm] at h2; exact Except.noConfusion h2
    | numero n => rw [hm] at h2; exact Except.noConfusion h2
    | nulo => rw [hm] at h2; exact Except.noConfusion h2
    | booleano b => rw [hm] at h2; exact Except.noConfusion h2

/-- A loop iteration whose Caso sits in a registry municipality under its
raw name succeeds with the classified tally. -/
theorem processa_classificado {municipios : List String} {st : Relatorio} {linha : List Bruto}
    {caso : Caso} {m : String} {bucket : Municipio Caso}
    (hc : carrega_dados_linha linha = Except.ok caso) (hm : caso.municipio = Camp.texto m)
    (hmem : municipios.contains (removeCaracteresEspeciais (maiuscula m)) = true)
    (hpc : procuraChave st.casosMunicipios m = some bucket) :
    processa_linha municipios st linha = Except.ok (aplicaClassificado caso m bucket st) := by
  unfold processa_linha
  rw [hc]
  show (match caso.municipio with
    | Camp.texto m =>
      if municipios.contains (removeCaracteresEspeciais (maiuscula m)) = true then
        match procuraChave st.casosMunicipios m with
        | none => Except.error (Erro.chave m)
        | some bucket => Except.ok (aplicaClassificado caso m bucket st)
      else Except.ok (aplicaImportado caso st)
    | _ => Except.error Erro.tipo) = Except.ok (aplicaClassificado caso m bucket st)
  rw [hm]
  show (if municipios.contains (removeCaracteresEspeciais (maiuscula m)) = true then
      match procuraChave st.casosMunicipios m with
      | none => Except.error (Erro.chave m)
      | some bucket => Except.ok (aplicaClassificado caso m bucket st)
    else Except.ok (aplicaImportado caso st)) = Except.ok (aplicaClassificado caso m bucket st)
  rw [if_pos hmem, hpc]

/-- A loop iteration whose Caso passes the membership test on the
normalized name but whose raw name is no dictionary key raises KeyError. -/
theorem processa_chave_ausente {municipios : List String} {st : Relatorio} {linha : List Bruto}
    {caso : Caso} {m : String}
    (hc : carrega_dados_linha linha = Except.ok caso) (hm : caso.municipio = Camp.texto m)
    (hmem : municipios.contains (removeCaracteresEspeciais (maiuscula m)) = true)
    (hpc : procuraChave st.casosMunicipios m = none) :
    processa_linha municipios st linha = Except.error (Erro.chave m) := by
  unfold processa_linha
  rw [hc]
  show (match caso.municipio with
    | Camp.texto m =>
      if municipios.contains (removeCaracteresEspeciais (maiuscula m)) = true then
        match procuraChave st.casosMunicipios m with
        | none => Except.error (Erro.chave m)
        | some bucket => Except.ok (aplicaClassificado caso m bucket st)
      else Except.ok (aplicaImportado caso st)
    | _ => Except.error Erro.tipo) = Except.error (Erro.chave m)
  rw [hm]
  show (if municipios.contains (removeCaracteresEspeciais (maiuscula m)) = true then
      match procuraChave st.casosMunicipios m with
      | none => Except.error (Erro.chave m)
      | some bucket => Except.ok (aplicaClassificado caso m bucket st)
    else Except.ok (aplicaImportado caso st)) = Except.error (Erro.chave m)
  rw [if_pos hmem, hpc]

/-- A loop iteration whose Caso could not be built propagates the error. -/
theorem processa_erro_carrega {municipios : List String} {st : Relatorio} {linha : List Bruto}
    {e : Erro} (hc : carrega_dados_linha linha = Except.error e) :
    processa_linha municipios st linha = Except.error e := by
  unfold processa_linha
  rw [hc]

/-- A loop iteration whose Caso fails the membership test tallies into the
unclassified counters. -/
theorem processa_importado {municipios : List String} {st : Relatorio} {linha : List Bruto}
    {caso : Caso} {m : String}
    (hc : carrega_dados_linha linha = Except.ok caso) (hm : caso.municipio = Camp.texto m)
    (hmem : ¬ municipios.contains (removeCaracteresEspeciais (maiuscula m)) = true) :
    processa_linha municipios st linha = Except.ok (aplicaImportado caso st) := by
  unfold processa_linha
  rw [hc]
  show (match caso.municipio with
    | Camp.texto m =>
      if municipios.contains (removeCaracteresEspeciais (maiuscula m)) = true then
        match procuraChave st.casosMunicipios m with
        | none => Except.error (Erro.chave m)
        | some bucket => Except.ok (aplicaClassificado caso m bucket st)
      else Except.ok (aplicaImportado caso st)
    | _ => Except.error Erro.tipo) = Except.ok (aplicaImportado caso st)
  rw [hm]
  show (if municipios.contains (removeCaracteresEspeciais (maiuscula m)) = true then
      match procuraChave st.casosMunicipios m with
      | none => Except.error (Erro.chave m)
      | some bucket => Except.ok (aplicaClassificado caso m bucket st)
    else Except.ok (aplicaImportado caso st)) = Except.ok (aplicaImportado caso st)
  rw [if_neg hmem]

/-- A loop iteration whose Caso has a non-string municipality raises
TypeError at the upper() call. -/
theorem processa_municipio_naoTexto {municipios : List String} {st : Relatorio}
    {linha : List Bruto} {caso : Caso}
    (hc : carrega_dados_linha linha = Except.ok caso)
    (hm : ∀ m, ¬ caso.municipio = Camp.texto m) :
    processa_linha municipios st linha = Except.error Erro.tipo := by
  unfold processa_linha
  rw [hc]
  show (match caso.municipio with
    | Camp.texto m =>
      if municipios.contains (removeCaracteresEspeciais (maiuscula m)) = true then
        match procuraChave st.casosMunicipios m with
        | none => Except.error (Erro.chave m)
        | some bucket => Except.ok (aplicaClassificado caso m bucket st)
      else Except.ok (aplicaImportado caso st)
    | _ => Except.error Erro.tipo) = Except.error Erro.tipo
  cases hmm : caso.municipio with
  | texto m => exact absurd hmm (hm m)
  | dataC d => rfl
  | numero n => rfl
  | nulo => rfl
  | booleano b => rfl

/-- The row loop never changes the stored row collection. -/
theorem percorre_linhas_fixas (municipios : List String) :
    ∀ (linhas : List (List Bruto)) (st r : Relatorio),
      percorreLinhas municipios st linhas = Except.ok r →
      r.linhasRelatorio = st.linhasRelatorio := by
  intro linhas
  induction linhas with
  | nil =>
    intro st r h
    have h2 : Except.ok st = Except.ok r := h
    cases h2
    rfl
  | cons linha resto ih =>
    intro st r h
    have h2 : (match processa_linha municipios st linha with
      | Except.error e => Except.error e
      | Except.ok rel2 => percorreLinhas municipios rel2 resto) = Except.ok r := h
    cases hp : processa_linha municipios st linha with
    | error e => rw [hp] at h2; exact Except.noConfusion h2
    | ok st1 =>
      rw [hp] at h2
      have hfix := ih st1 r h2
      obtain ⟨caso, hc, m, hm, hcase⟩ := processa_forma hp
      rcases hcase with ⟨bucket, hmem, hpc, hst1⟩ | ⟨hmem, hst1⟩
      · rw [hfix, hst1]
        exact (aplicaClassificado_campos caso m bucket st).1
      · rw [hfix, hst1]
        exact (aplicaImportado_campos caso st).1

/-- Conservation of the confirmed and death counters along the row loop. -/
theorem percorre_conserva (municipios : List String) :
    ∀ (linhas : List (List Bruto)) (st r : Relatorio),
      percorreLinhas municipios st linhas = Except.ok r →
      st.totalCasosConfirmados = st.importadosCasosConfirmados
        + somaPor (fun b => b.casosConfirmados) st.casosMunicipios →
      st.totalObitos = st.importadosObitos + somaPor (fun b => b.obitos) st.casosMunicipios →
      (r.totalCasosConfirmados = r.importadosCasosConfirmados
          + somaPor (fun b => b.casosConfirmados) r.casosMunicipios ∧
       r.totalObitos = r.importadosObitos + somaPor (fun b => b.obitos) r.casosMunicipios) := by
  intro linhas
  induction linhas with
  | nil =>
    intro st r h h1 h2
    have h3 : Except.ok st = Except.ok r := h
    cases h3
    exact ⟨h1, h2⟩
  | cons linha resto ih =>
    intro st r h h1 h2
    have h3 : (match processa_linha municipios st linha with
      | Except.error e => Except.error e
      | Except.ok rel2 => percorreLinhas municipios rel2 resto) = Except.ok r := h
    cases hp : processa_linha municipios st linha with
    | error e => rw [hp] at h3; exact Except.noConfusion h3
    | ok st1 =>
      rw [hp] at h3
      obtain ⟨caso, hc, m, hm, hcase⟩ := processa_forma hp
      rcases hcase with ⟨bucket, hmem, hpc, hst1⟩ | ⟨hmem, hst1⟩
      · obtain ⟨-, ht, hic, hio, hto, -⟩ := aplicaClassificado_campos caso m bucket st
        obtain ⟨sc, so, -⟩ := aplicaClassificado_dict caso m bucket st hpc
        subst hst1
        apply ih _ r h3
        · rw [ht, hic, sc]; omega
        · rw [hto, hio, so]; omega
      · obtain ⟨-, ht, hic, hio, hto, -, hdict⟩ := aplicaImportado_campos caso st
        subst hst1
        apply ih _ r h3
        · rw [ht, hic, hdict]; omega
        · rw [hto, hio, hdict]; omega

/-- Splitting the row loop over an appended collection. -/
theorem percorre_append (municipios : List String) (l1 l2 : List (List Bruto)) :
    ∀ st : Relatorio, percorreLinhas municipios st (l1 ++ l2)
      = (match percorreLinhas municipios st l1 with
        | Except.error e => Except.error e
        | Except.ok st1 => percorreLinhas municipios st1 l2) := by
  induction l1 with
  | nil => intro st; rfl
  | cons linha resto ih =>
    intro st
    show (match processa_linha municipios st linha with
        | Except.error e => Except.error e
        | Except.ok st1 => percorreLinhas municipios st1 (resto ++ l2))
      = (match (match processa_linha municipios st linha with
          | Except.error e => Except.error e
          | Except.ok st1 => percorreLinhas municipios st1 resto) with
        | Except.error e => Except.error e
        | Except.ok st1 => percorreLinhas municipios st1 l2)
    cases hp : processa_linha municipios st linha with
    | error e => rfl
    | ok st1 => exact ih st1

/-- The classified tally commutes with overwriting the stored rows. -/
theorem aplicaClassificado_linhasIndep (caso : Caso) (m : String) (bucket : Municipio Caso)
    (st : Relatorio) (L : List (List Bruto)) :
    aplicaClassificado caso m bucket { st with linhasRelatorio := L }
      = { aplicaClassificado caso m bucket st with linhasRelatorio := L } := by
  unfold aplicaClassificado
  by_cases hz : bucket.casosConfirmados = 0 <;>
    by_cases hd : caso.evolucao = Camp.texto "Óbito pelo COVID-19" <;>
      simp [hz, hd]

/-- The unclassified tally commutes with overwriting the stored rows. -/
theorem aplicaImportado_linhasIndep (caso : Caso) (st : Relatorio) (L : List (List Bruto)) :
    aplicaImportado caso { st with linhasRelatorio := L }
      = { aplicaImportado caso st with linhasRelatorio := L } := by
  unfold aplicaImportado
  by_cases hd : caso.evolucao = Camp.texto "Óbito pelo COVID-19" <;> simp [hd]

/-- One loop iteration ignores the stored rows of the state. -/
theorem processa_linhasIndep (municipios : List String) (st : Relatorio)
    (L : List (List Bruto)) (linha : List Bruto) :
    processa_linha municipios { st with linhasRelatorio := L } linha
      = (processa_linha municipios st linha).map (fun r => { r with linhasRelatorio := L }) := by
  cases hca : carrega_dados_linha linha with
  | error e =>
    rw [processa_erro_carrega hca, processa_erro_carrega hca]
    rfl
  | ok caso =>
    cases hm : caso.municipio with
    | texto m =>
      by_cases hmem : municipios.contains (removeCaracteresEspeciais (maiuscula m)) = true
      · cases hpc : procuraChave st.casosMunicipios m with
        | none =>
          have hpc2 : procuraChave ({ st with linhasRelatorio := L }).casosMunicipios m
              = none := hpc
          rw [processa_chave_ausente hca hm hmem hpc2,
            processa_chave_ausente hca hm hmem hpc]
          rfl
        | some bucket =>
          have hpc2 : procuraChave ({ st with linhasRelatorio := L }).casosMunicipios m
              = some bucket := hpc
          rw [processa_classificado hca hm hmem hpc2,
            processa_classificado hca hm hmem hpc, aplicaClassificado_linhasIndep]
          rfl
      · rw [processa_importado hca hm hmem, processa_importado hca hm hmem,
          aplicaImportado_linhasIndep]
        rfl
    | dataC d =>
      have hnt : ∀ m2, ¬ caso.municipio = Camp.texto m2 := by
        intro m2 hq
        rw [hm] at hq
        cases hq
      rw [processa_municipio_naoTexto hca hnt, processa_municipio_naoTexto hca hnt]
      rfl
    | numero n =>
      have hnt : ∀ m2, ¬ caso.municipio = Camp.texto m2 := by
        intro m2 hq
        rw [hm] at hq
        cases hq
      rw [processa_municipio_naoTexto hca hnt, processa_municipio_naoTexto hca hnt]
      rfl
    | nulo =>
      have hnt : ∀ m2, ¬ caso.municipio = Camp.texto m2 := by
        intro m2 hq
        rw [hm] at hq
        cases hq
      rw [processa_municipio_naoTexto hca hnt, processa_municipio_naoTexto hca hnt]
      rfl
    | booleano b =>
      have hnt : ∀ m2, ¬ caso.municipio = Camp.texto m2 := by
        intro m2 hq
        rw [hm] at hq
        cases hq
      rw [processa_municipio_naoTexto hca hnt, processa_municipio_naoTexto hca hnt]
      rfl

/-- The row loop ignores the stored rows of the state. -/
theorem percorre_linhasIndep (municipios : List String) (l : List (List Bruto)) :
    ∀ (st : Relatorio) (L : List (List Bruto)),
      percorreLinhas municipios { st with linhasRelatorio := L } l
        = (percorreLinhas municipios st l).map (fun r => { r with linhasRelatorio := L }) := by
  induction l with
  | nil => intro st L; rfl
  | cons linha resto ih =>
    intro st L
    show (match processa_linha municipios { st with linhasRelatorio := L } linha with
      | Except.error e => Except.error e
      | Except.ok st1 => percorreLinhas municipios st1 resto)
      = Except.map (fun r => { r with linhasRelatorio := L })
        (match processa_linha municipios st linha with
         | Except.error e => Except.error e
         | Except.ok st1 => percorreLinhas municipios st1 resto)
    rw [processa_linhasIndep]
    cases hp : processa_linha municipios st linha with
    | error e => rfl
    | ok st1 =>
      show percorreLinhas municipios { st1 with linhasRelatorio := L } resto
        = Except.map (fun r => { r with linhasRelatorio := L })
          (percorreLinhas municipios st1 resto)
      exact ih st1 L

/-- A row with an invalid first date or fewer than 27 cells cannot produce
a Caso. -/
theorem carrega_malformada {linha : List Bruto}
    (hbad : dataInicialInvalida linha = true ∨ linha.length < 27) :
    ∃ e, carrega_dados_linha linha = Except.error e := by
  cases hres : carrega_dados_linha linha with
  | error e => exact ⟨e, rfl⟩
  | ok caso =>
    exfalso
    obtain ⟨camps, hcamps, hlen, h27, -⟩ := carrega_forma hres
    obtain ⟨s, d, b2, b3, b6, b9, b10, b11, x3, x9, x10, x11, hs0, hsp, -⟩ :=
      trata_forma hcamps
    rcases hbad with hb | hb
    · unfold dataInicialInvalida at hb
      rw [hs0] at hb
      have hb2 : (parseData s).isNone = true := hb
      rw [hsp] at hb2
      exact Bool.noConfusion hb2
    · omega

/-- Lookup in the freshly initialized dictionary succeeds exactly on the
registry entries, with a fresh bucket. -/
theorem procuraChave_inicializa (municipios : List String) (m : String) :
    procuraChave (inicializa_dicionario_municipios municipios) m
      = if m ∈ municipios then some (municipioNovo m) else none := by
  induction municipios with
  | nil => rfl
  | cons k resto ih =>
    show (if k = m then some (municipioNovo k)
        else procuraChave (inicializa_dicionario_municipios resto) m)
      = if m ∈ k :: resto then some (municipioNovo m) else none
    by_cases hk : k = m
    · subst hk
      simp [List.mem_cons]
    · have hk2 : ¬ (m = k) := fun he => hk he.symm
      simp [hk, hk2, ih, List.mem_cons]

/-- A list is a prefix of itself followed by anything. -/
theorem ehPrefixoLista_proprio (sub r : List Char) : ehPrefixoLista sub (sub ++ r) = true := by
  induction sub with
  | nil => rfl
  | cons c cs ih => simp [ehPrefixoLista, ih]

/-- A list occurs in any list that embeds it contiguously. -/
theorem contemSublista_meio (sub pre r : List Char) :
    contemSublista sub (pre ++ (sub ++ r)) = true := by
  induction pre with
  | nil =>
    cases sub with
    | nil =>
      cases r with
      | nil => rfl
      | cons c cs => simp [contemSublista, ehPrefixoLista]
    | cons c cs =>
      have hp := ehPrefixoLista_proprio (c :: cs) r
      show (ehPrefixoLista (c :: cs) (c :: (cs ++ r)) || contemSublista (c :: cs) (cs ++ r)) = true
      rw [show ehPrefixoLista (c :: cs) (c :: (cs ++ r)) = true from hp]
      rfl
  | cons p ps ih => simp [contemSublista, ih]

/-- A string occurs in any concatenation that embeds it. -/
theorem contemSubstring_concat (s a b : String) :
    contemSubstring s (a ++ (s ++ b)) = true := by
  unfold contemSubstring
  rw [String.data_append, String.data_append]
  exact contemSublista_meio s.data a.data b.data

/-- The comprehension of the up-to filter keeps exactly the rows whose
parsed date is on or before the target. -/
theorem filtraAte_filtra (alvo : Data) :
    ∀ (rows kept : List (List Bruto)), filtraAte alvo rows = Except.ok kept →
      kept = rows.filter (mantemAte alvo) := by
  intro rows
  induction rows with
  | nil =>
    intro kept h
    have h2 : Except.ok ([] : List (List Bruto)) = Except.ok kept := h
    cases h2
    rfl
  | cons linha resto ih =>
    intro kept h
    have h2 : (match primeiraDataMulti linha with
      | Except.error e => Except.error e
      | Except.ok d =>
        match filtraAte alvo resto with
        | Except.error e => Except.error e
        | Except.ok mantidas =>
            Except.ok (if Data.antesOuIgual d alvo then linha :: mantidas else mantidas))
      = Except.ok kept := h
    cases hd : primeiraDataMulti linha with
    | error e => rw [hd] at h2; exact Except.noConfusion h2
    | ok d =>
      rw [hd] at h2
      cases hres : filtraAte alvo resto with
      | error e => rw [hres] at h2; exact Except.noConfusion h2
      | ok mantidas =>
        rw [hres] at h2
        have h3 : Except.ok (if Data.antesOuIgual d alvo then linha :: mantidas else mantidas)
            = Except.ok kept := h2
        cases h3
        have hm : mantemAte alvo linha = Data.antesOuIgual d alvo := by
          unfold mantemAte
          rw [hd]
        rw [List.filter_cons, hm, ← ih mantidas hres]

/-- The comprehension of the exact-day filter keeps exactly the rows whose
parsed date equals the target. -/
theorem filtraNoDia_filtra (alvo : Data) :
    ∀ (rows kept : List (List Bruto)), filtraNoDia alvo rows = Except.ok kept →
      kept = rows.filter (mantemNoDia alvo) := by
  intro rows
  induction rows with
  | nil =>
    intro kept h
    have h2 : Except.ok ([] : List (List Bruto)) = Except.ok kept := h
    cases h2
    rfl
  | cons linha resto ih =>
    intro kept h
    have h2 : (match primeiraDataMulti linha with
      | Except.error e => Except.error e
      | Except.ok d =>
        match filtraNoDia alvo resto with
        | Except.error e => Except.error e
        | Except.ok mantidas =>
            Except.ok (if d = alvo then linha :: mantidas else mantidas))
      = Except.ok kept := h
    cases hd : primeiraDataMulti linha with
    | error e => rw [hd] at h2; exact Except.noConfusion h2
    | ok d =>
      rw [hd] at h2
      cases hres : filtraNoDia alvo resto with
      | error e => rw [hres] at h2; exact Except.noConfusion h2
      | ok mantidas =>
        rw [hres] at h2
        have h3 : Except.ok (if d = alvo then linha :: mantidas else mantidas)
            = Except.ok kept := h2
        cases h3
        have hm : mantemNoDia alvo linha = decide (d = alvo) := by
          unfold mantemNoDia
          rw [hd]
        rw [List.filter_cons, hm, ← ih mantidas hres]
        by_cases heq : d = alvo
        · rw [if_pos heq, if_pos (decide_eq_true heq)]
        · rw [if_neg heq, if_neg (by simpa using heq)]

/-- C1, counterexample: the canonical aggregation pass of relatorio.py
tallies a row classified Suspeitos into the global confirmed total and the
newly-infected counter, refuting that a row is tallied only when its
classification equals Confirmados. -/
theorem C1_counterexample :
    (popula_relatorio msUm relSuspeita).map
        (fun r => (r.totalCasosConfirmados, r.nMunicipiosInfectados)) = Except.ok (1, 1) ∧
    linhaSuspeita.get? 1 = some (Bruto.texto "Suspeitos") := by
  exact ⟨rfl, rfl⟩

/-- C1 (amended): only the older PowerBI aggregation pass restricts tallying
to rows whose classification equals the literal Confirmados — there a
successfully constructed non-confirmed row leaves the whole state unchanged
— while the canonical relatorio.py pass tallies every successfully processed
row into the global confirmed counter regardless of its classification. -/
theorem C1_confirmados_amended (municipios : List String) (stP : PowerBI.Relatorio)
    (st st2 : Relatorio) (linha : List Bruto) (casoP : PowerBI.Caso) :
    (PowerBI.carrega_dados_linha linha = Except.ok casoP →
      ¬ casoP.classificacao = Camp.texto "Confirmados" →
      PowerBI.processa_linha municipios stP linha = Except.ok stP) ∧
    (processa_linha municipios st linha = Except.ok st2 →
      st2.totalCasosConfirmados = st.totalCasosConfirmados + 1) := by
  constructor
  · intro hc hcls
    unfold PowerBI.processa_linha
    rw [hc]
    simp only [if_neg hcls]
  · intro h
    obtain ⟨caso, hc2, m, hm, hcase⟩ := processa_forma h
    rcases hcase with ⟨bucket, hmem, hpc, hst⟩ | ⟨hmem, hst⟩
    · subst hst
      exact (aplicaClassificado_campos caso m bucket st).2.1
    · subst hst
      exact (aplicaImportado_campos caso st).2.1

/-- C1 (amended), witness: the older pass skips the concrete Suspeitos row
entirely, and the canonical pass tallies the same row into the global total. -/
theorem C1_confirmados_amended_witness :
    PowerBI.processa_linha msUm relPowerBI linhaSuspeita = Except.ok relPowerBI ∧
    relAposSuspeita.totalCasosConfirmados
      = (estadoInicial msUm []).totalCasosConfirmados + 1 := by
  have h := C1_confirmados_amended msUm relPowerBI (estadoInicial msUm []) relAposSuspeita
    linhaSuspeita casoSuspeitoPowerBI
  exact ⟨h.1 rfl (by decide), h.2 rfl⟩

/-- C2: after every successful aggregation pass of relatorio.py, the global
confirmed total equals the unclassified confirmed counter plus the sum of
the per-municipality confirmed counters, and the same conservation law holds
for the death counters. -/
theorem C2_conservacao (municipios : List String) (rel r : Relatorio)
    (h : popula_relatorio municipios rel = Except.ok r) :
    r.totalCasosConfirmados = r.importadosCasosConfirmados
        + somaPor (fun b => b.casosConfirmados) r.casosMunicipios ∧
    r.totalObitos = r.importadosObitos + somaPor (fun b => b.obitos) r.casosMunicipios := by
  unfold popula_relatorio at h
  apply percorre_conserva municipios rel.linhasRelatorio _ r h
  · show (0 : Nat) = 0 + somaPor (fun b => b.casosConfirmados)
        (inicializa_dicionario_municipios municipios)
    rw [somaPor_inicializa (fun b => b.casosConfirmados) (fun nome => rfl)]
  · show (0 : Nat) = 0 + somaPor (fun b => b.obitos)
        (inicializa_dicionario_municipios municipios)
    rw [somaPor_inicializa (fun b => b.obitos) (fun nome => rfl)]

/-- C2, witness at a concrete pass with one classified death row and one
unclassified row. -/
theorem C2_conservacao_witness :
    relDoisCasosSaida.totalCasosConfirmados = relDoisCasosSaida.importadosCasosConfirmados
        + somaPor (fun b => b.casosConfirmados) relDoisCasosSaida.casosMunicipios ∧
    relDoisCasosSaida.totalObitos = relDoisCasosSaida.importadosObitos
        + somaPor (fun b => b.obitos) relDoisCasosSaida.casosMunicipios :=
  C2_conservacao msUm relDoisCasos relDoisCasosSaida rfl

/-- C3, counterexample: the up-to-and-including filter of relatorio.py keeps
a non-header row classified Suspeitos whose date is before the target,
refuting that it keeps only rows whose classification is confirmed. -/
theorem C3_counterexample :
    (filtra_casos_ate_dia msUm leitorSuspeita "11/03/2020").map (fun r => r.linhasRelatorio)
        = Except.ok [linhaSuspeita] ∧
    linhaSuspeita.get? 1 = some (Bruto.texto "Suspeitos") := by
  exact ⟨rfl, rfl⟩

/-- C3 (amended): given loaded rows (header at index 0) and a parsed target
date, filtra_casos_ate_dia keeps exactly the non-header rows whose date is
on or before the target regardless of classification, filtra_casos_no_dia
keeps exactly the non-header rows whose date equals the target, and each
filter re-runs the aggregation pass on exactly the kept rows. -/
theorem C3_filtros_amended (municipios : List String) (leitor : LeitorRelatorio)
    (data : String) (alvo : Data) (mantidasA mantidasN : List (List Bruto))
    (hp : parseDataMulti data = some alvo)
    (hne : ¬ leitor.relatorio.linhasRelatorio = [])
    (hA : filtraAte alvo (leitor.linhasRelatorio.drop 1) = Except.ok mantidasA)
    (hN : filtraNoDia alvo (leitor.linhasRelatorio.drop 1) = Except.ok mantidasN) :
    mantidasA = (leitor.linhasRelatorio.drop 1).filter (mantemAte alvo) ∧
    mantidasN = (leitor.linhasRelatorio.drop 1).filter (mantemNoDia alvo) ∧
    filtra_casos_ate_dia municipios leitor data
      = popula_relatorio municipios { leitor.relatorio with linhasRelatorio := mantidasA } ∧
    filtra_casos_no_dia municipios leitor data
      = popula_relatorio municipios { leitor.relatorio with linhasRelatorio := mantidasN } := by
  refine ⟨filtraAte_filtra alvo _ _ hA, filtraNoDia_filtra alvo _ _ hN, ?_, ?_⟩
  · unfold filtra_casos_ate_dia
    rw [if_neg hne, hp]
    show (match filtraAte alvo (leitor.linhasRelatorio.drop 1) with
      | Except.error e => Except.error e
      | Except.ok mantidas => popula_relatorio municipios
          { leitor.relatorio with linhasRelatorio := mantidas })
      = popula_relatorio municipios { leitor.relatorio with linhasRelatorio := mantidasA }
    rw [hA]
  · unfold filtra_casos_no_dia
    rw [if_neg hne, hp]
    show (match filtraNoDia alvo (leitor.linhasRelatorio.drop 1) with
      | Except.error e => Except.error e
      | Except.ok mantidas => popula_relatorio municipios
          { leitor.relatorio with linhasRelatorio := mantidas })
      = popula_relatorio municipios { leitor.relatorio with linhasRelatorio := mantidasN }
    rw [hN]

/-- C3 (amended), witness at the concrete reader: the boundary filters keep
the dated Suspeitos row for the up-to filter and nothing for the exact-day
filter, and both re-run the aggregation on the kept rows. -/
theorem C3_filtros_amended_witness :
    ([linhaSuspeita] : List (List Bruto))
        = (leitorSuspeita.linhasRelatorio.drop 1).filter (mantemAte ⟨2020, 3, 11⟩) ∧
    ([] : List (List Bruto))
        = (leitorSuspeita.linhasRelatorio.drop 1).filter (mantemNoDia ⟨2020, 3, 11⟩) ∧
    filtra_casos_ate_dia msUm leitorSuspeita "11/03/2020"
      = popula_relatorio msUm
          { leitorSuspeita.relatorio with linhasRelatorio := [linhaSuspeita] } ∧
    filtra_casos_no_dia msUm leitorSuspeita "11/03/2020"
      = popula_relatorio msUm { leitorSuspeita.relatorio with linhasRelatorio := [] } :=
  C3_filtros_amended msUm leitorSuspeita "11/03/2020" ⟨2020, 3, 11⟩ [linhaSuspeita] []
    rfl (by decide) rfl rfl

/-- C6, counterexample: the older PowerBI pass does not reset its state, so
running it twice on the same one-row collection doubles the global confirmed
total instead of reproducing it. -/
theorem C6_counterexample :
    PowerBI.popula_relatorio msUm relPowerBI = Except.ok relPowerBISaida ∧
    relPowerBISaida.totalCasosConfirmados = 1 ∧
    (PowerBI.popula_relatorio msUm relPowerBISaida).map (fun r => r.totalCasosConfirmados)
      = Except.ok 2 := by
  exact ⟨rfl, rfl, rfl⟩

/-- C6 (amended): the canonical relatorio.py aggregation pass first resets
all counters and re-initializes one fresh Municipality bucket per registry
entry, so running it again on its own successful result reproduces that
result identically; the older PowerBI pass lacks the reset and accumulates
instead. -/
theorem C6_idempotencia_amended (municipios : List String) (rel r : Relatorio)
    (h : popula_relatorio municipios rel = Except.ok r) :
    popula_relatorio municipios r = Except.ok r := by
  unfold popula_relatorio at h
  have hfix : r.linhasRelatorio = rel.linhasRelatorio := by
    have h2 := percorre_linhas_fixas municipios rel.linhasRelatorio
      (estadoInicial municipios rel.linhasRelatorio) r h
    rw [h2]
    exact rfl
  unfold popula_relatorio
  rw [hfix]
  exact h

/-- C6 (amended), witness at the concrete single confirmed row. -/
theorem C6_idempotencia_amended_witness :
    popula_relatorio msUm relConfirmadaSaida = Except.ok relConfirmadaSaida :=
  C6_idempotencia_amended msUm { relVazio with linhasRelatorio := [linhaConfirmada] }
    relConfirmadaSaida rfl

/-- C7: within one aggregation pass, a tallied case of a municipality whose
confirmed counter is zero increments nMunicipiosInfectados by exactly one,
while a tallied case of a municipality with a nonzero counter leaves it
unchanged; the tallied bucket counter becomes nonzero, so a further case of
the same municipality cannot increment the counter again, and nothing in
the increment depends on the death status of the case. -/
theorem C7_primeiro_caso (municipios : List String) (st st2 : Relatorio) (linha : List Bruto)
    (caso : Caso) (m : String) (bucket : Municipio Caso)
    (hc : carrega_dados_linha linha = Except.ok caso)
    (hm : caso.municipio = Camp.texto m)
    (hmem : municipios.contains (removeCaracteresEspeciais (maiuscula m)) = true)
    (hpc : procuraChave st.casosMunicipios m = some bucket)
    (hstep : processa_linha municipios st linha = Except.ok st2) :
    st2.nMunicipiosInfectados = (if bucket.casosConfirmados = 0
        then st.nMunicipiosInfectados + 1 else st.nMunicipiosInfectados) ∧
    (procuraChave st2.casosMunicipios m).map (fun b => b.casosConfirmados)
      = some (bucket.casosConfirmados + 1) := by
  have hres := processa_classificado hc hm hmem hpc
  rw [hstep] at hres
  injection hres with h5
  subst h5
  exact ⟨(aplicaClassificado_campos caso m bucket st).2.2.2.2.2,
    (aplicaClassificado_dict caso m bucket st hpc).2.2⟩

/-- C7, witness: the first confirmed case of the concrete municipality
raises the newly-infected count from zero and sets its bucket counter to
one. -/
theorem C7_primeiro_caso_witness :
    relAposConfirmada.nMunicipiosInfectados
        = (if (municipioNovo "VITORIA" : Municipio Caso).casosConfirmados = 0
           then (estadoInicial msUm []).nMunicipiosInfectados + 1
           else (estadoInicial msUm []).nMunicipiosInfectados) ∧
    (procuraChave relAposConfirmada.casosMunicipios "VITORIA").map
        (fun b => b.casosConfirmados)
      = some ((municipioNovo "VITORIA" : Municipio Caso).casosConfirmados + 1) :=
  C7_primeiro_caso msUm (estadoInicial msUm []) relAposConfirmada linhaConfirmada
    casoConfirmado "VITORIA" (municipioNovo "VITORIA") rfl rfl rfl rfl rfl

/-- C8: a row collection containing a row whose first cell is not a strict
DD/MM/YYYY date, or a row with fewer than 27 cells, makes the whole
aggregation pass of relatorio.py fail with an error, and the outcome of the
pass is entirely independent of the rows after the malformed one — no row
is skipped and no partial result is produced. -/
theorem C8_falha_linha (municipios : List String) (rel rel2 : Relatorio)
    (pref resto resto2 : List (List Bruto)) (linha : List Bruto)
    (hrows : rel.linhasRelatorio = pref ++ linha :: resto)
    (hrows2 : rel2.linhasRelatorio = pref ++ linha :: resto2)
    (hbad : dataInicialInvalida linha = true ∨ linha.length < 27) :
    (∃ e, popula_relatorio municipios rel = Except.error e) ∧
    popula_relatorio municipios rel = popula_relatorio municipios rel2 := by
  obtain ⟨e0, he0⟩ := carrega_malformada hbad
  have hgeral : ∀ resto3 : List (List Bruto),
      percorreLinhas municipios (estadoInicial municipios []) (pref ++ linha :: resto3)
        = (match percorreLinhas municipios (estadoInicial municipios []) pref with
           | Except.error e => Except.error e
           | Except.ok st1 => Except.error e0) := by
    intro resto3
    rw [percorre_append]
    cases hpref : percorreLinhas municipios (estadoInicial municipios []) pref with
    | error e => rfl
    | ok st1 =>
      show (match processa_linha municipios st1 linha with
        | Except.error e => Except.error e
        | Except.ok r2 => percorreLinhas municipios r2 resto3) = Except.error e0
      rw [processa_erro_carrega he0]
  have hpop : ∀ (relx : Relatorio) (restox : List (List Bruto)),
      relx.linhasRelatorio = pref ++ linha :: restox →
      popula_relatorio municipios relx
        = Except.map (fun r : Relatorio => { r with linhasRelatorio := pref ++ linha :: restox })
          (match percorreLinhas municipios (estadoInicial municipios []) pref with
           | Except.error e => Except.error e
           | Except.ok st1 => Except.error e0) := by
    intro relx restox hx
    unfold popula_relatorio
    rw [hx]
    have hini : estadoInicial municipios (pref ++ linha :: restox)
        = { estadoInicial municipios [] with linhasRelatorio := pref ++ linha :: restox } := rfl
    rw [hini, percorre_linhasIndep, hgeral restox]
  constructor
  · rw [hpop rel resto hrows]
    cases hpref : percorreLinhas municipios (estadoInicial municipios []) pref with
    | error e => exact ⟨e, rfl⟩
    | ok st1 => exact ⟨e0, rfl⟩
  · rw [hpop rel resto hrows, hpop rel2 resto2 hrows2]
    cases hpref : percorreLinhas municipios (estadoInicial municipios []) pref with
    | error e => rfl
    | ok st1 => rfl

/-- C8, witness: a one-row collection with an unparseable date fails the
pass, and appending a further valid row after the malformed one changes
nothing. -/
theorem C8_falha_linha_witness :
    (∃ e, popula_relatorio msUm { relVazio with linhasRelatorio := [linhaDataRuim] }
        = Except.error e) ∧
    popula_relatorio msUm { relVazio with linhasRelatorio := [linhaDataRuim] }
      = popula_relatorio msUm
          { relVazio with linhasRelatorio := [linhaDataRuim, linhaConfirmada] } :=
  C8_falha_linha msUm { relVazio with linhasRelatorio := [linhaDataRuim] }
    { relVazio with linhasRelatorio := [linhaDataRuim, linhaConfirmada] }
    [] [] [linhaConfirmada] linhaDataRuim rfl rfl (Or.inl (by decide))

/-- C9: municipality lookup normalizes the query (strip special characters,
uppercase, trim) and returns the Municipality stored under the normalized
key when present; otherwise it raises RelatorioError with a message that
contains the exact original input string. -/
theorem C9_busca (rel : Relatorio) (municipio : String) :
    (∀ b, procuraChave rel.casosMunicipios
        (tiraEspacos (maiuscula (removeCaracteresEspeciais municipio))) = some b →
      busca_casos_municipio rel municipio = Except.ok b) ∧
    (procuraChave rel.casosMunicipios
        (tiraEspacos (maiuscula (removeCaracteresEspeciais municipio))) = none →
      ∃ msg, busca_casos_municipio rel municipio = Except.error (Erro.relatorio msg) ∧
        contemSubstring municipio msg = true) := by
  constructor
  · intro b hb
    unfold busca_casos_municipio
    rw [hb]
  · intro hn
    unfold busca_casos_municipio
    rw [hn]
    refine ⟨_, rfl, ?_⟩
    rw [String.append_assoc]
    exact contemSubstring_concat municipio "O município \x27"
      "\x27 não foi encontrado no relatório. Pode ter ocorrido um erro de digitação ou o município não registrou casos de COVID-19."

/-- C9, witness: a lowercase padded query finds its canonical bucket, and a
query absent from the registry raises RelatorioError naming it. -/
theorem C9_busca_witness :
    busca_casos_municipio relBusca " vitoria " = Except.ok (municipioNovo "VITORIA") ∧
    ∃ msg, busca_casos_municipio relBusca "Atlantida" = Except.error (Erro.relatorio msg) ∧
      contemSubstring "Atlantida" msg = true :=
  ⟨(C9_busca relBusca " vitoria ").1 (municipioNovo "VITORIA") rfl,
    (C9_busca relBusca "Atlantida").2 rfl⟩

/-- C10: in the aggregation pass of relatorio.py, membership is tested on
the normalized municipality name but the dictionary is indexed with the raw
name, so a one-row pass whose raw name is not itself a registry key aborts
with KeyError carrying the raw name, and succeeds when the raw name already
equals its canonical registry form. -/
theorem C10_chave_bruta (municipios : List String) (linha : List Bruto) (caso : Caso)
    (m : String) (rel : Relatorio)
    (hc : carrega_dados_linha linha = Except.ok caso)
    (hm : caso.municipio = Camp.texto m)
    (hmem : municipios.contains (removeCaracteresEspeciais (maiuscula m)) = true)
    (hlinhas : rel.linhasRelatorio = [linha]) :
    (¬ m ∈ municipios → popula_relatorio municipios rel = Except.error (Erro.chave m)) ∧
    (m ∈ municipios → ∃ r, popula_relatorio municipios rel = Except.ok r) := by
  constructor
  · intro hnao
    unfold popula_relatorio
    rw [hlinhas]
    show (match processa_linha municipios (estadoInicial municipios [linha]) linha with
      | Except.error e => Except.error e
      | Except.ok r2 => percorreLinhas municipios r2 []) = Except.error (Erro.chave m)
    have hpc : procuraChave (estadoInicial municipios [linha]).casosMunicipios m = none := by
      show procuraChave (inicializa_dicionario_municipios municipios) m = none
      rw [procuraChave_inicializa, if_neg hnao]
    rw [processa_chave_ausente hc hm hmem hpc]
  · intro hsim
    unfold popula_relatorio
    rw [hlinhas]
    have hpc : procuraChave (estadoInicial municipios [linha]).casosMunicipios m
        = some (municipioNovo m) := by
      show procuraChave (inicializa_dicionario_municipios municipios) m
        = some (municipioNovo m)
      rw [procuraChave_inicializa, if_pos hsim]
    refine ⟨aplicaClassificado caso m (municipioNovo m) (estadoInicial municipios [linha]), ?_⟩
    show (match processa_linha municipios (estadoInicial municipios [linha]) linha with
      | Except.error e => Except.error e
      | Except.ok r2 => percorreLinhas municipios r2 [])
      = Except.ok (aplicaClassificado caso m (municipioNovo m)
          (estadoInicial municipios [linha]))
    rw [processa_classificado hc hm hmem hpc]
    exact rfl

/-- C10, witness: the concrete row with raw name vitoria, which matches the
registry entry VITORIA only after normalization, aborts the pass with
KeyError on vitoria. -/
theorem C10_chave_bruta_witness :
    popula_relatorio msUm { relVazio with linhasRelatorio := [linhaMinuscula] }
      = Except.error (Erro.chave "vitoria") ∧
    ∃ r, popula_relatorio msUm { relVazio with linhasRelatorio := [linhaConfirmada] }
      = Except.ok r :=
  ⟨(C10_chave_bruta msUm linhaMinuscula casoMinusculo "vitoria"
      { relVazio with linhasRelatorio := [linhaMinuscula] } rfl rfl rfl rfl).1 (by decide),
    (C10_chave_bruta msUm linhaConfirmada casoConfirmado "VITORIA"
      { relVazio with linhasRelatorio := [linhaConfirmada] } rfl rfl rfl rfl).2 (by decide)⟩

end CovidESPy
